import Mathlib

/-!
Verification development for the Intelligent-Form-Builder-v2 repository.

The definitions below are shallow embeddings of the security middleware
(`src/middleware.ts`), the security library (rate limiter / CSRF protection),
the form exporter (`src/lib/form-exporter.ts`), the CNPJ validator
(`src/lib/auto-fill.ts`), and the submissions POST handler.

JavaScript `Map` objects are embedded as association lists
(`List (String × α)`): `Map.get` is `List.lookup`, `Map.set` replaces the
first binding of the key (or appends a fresh one), and `Map.delete` removes
the bindings of the key.  `Date.now()` is an explicit `Nat` parameter
(milliseconds), and `new Date().toISOString()` an explicit `String` parameter.
-/

namespace FormBuilder

/-! ### JavaScript `Map` embedding -/

section JsMap

variable {α : Type}

/-- `Map.set`: replace the first binding of `k`, or append a new one. -/
def mapSet : List (String × α) → String → α → List (String × α)
  | [], k, v => [(k, v)]
  | (k', v') :: rest, k, v =>
    if k' = k then (k, v) :: rest else (k', v') :: mapSet rest k v

/-- `Map.delete`: remove the bindings of key `k`. -/
def mapDel (st : List (String × α)) (k : String) : List (String × α) :=
  st.filter (fun p => p.1 ≠ k)

end JsMap


/-! ### Rate limiting (`src/middleware.ts`, `checkRateLimit`) -/

/-- Entry of the in-process `rateLimitMap`: `{ count, resetTime }`. -/
structure MwRateEntry where
  count : Nat
  resetTime : Nat
deriving DecidableEq

/-- Result of `checkRateLimit`: `{ allowed, resetTime?, message? }`. -/
structure RateLimitResult where
  allowed : Bool
  resetTime : Option Nat
  message : Option String
deriving DecidableEq

/-- Does the character sequence `sub` occur at the start of `l`? -/
def seqStarts : List Char → List Char → Bool
  | [], _ => true
  | _ :: _, [] => false
  | a :: as, b :: bs => a == b && seqStarts as bs

/-- Does the character sequence `sub` occur anywhere inside `l`? -/
def seqContains (sub : List Char) : List Char → Bool
  | [] => sub.isEmpty
  | c :: rest => seqStarts sub (c :: rest) || seqContains sub rest

/-- `String.prototype.includes`. -/
def strIncludes (s sub : String) : Bool :=
  seqContains sub.data s.data

/-- `String.prototype.startsWith`. -/
def strStartsWith (s pre : String) : Bool :=
  seqStarts pre.data s.data

/-- `str.split(sep)[0]`: the characters before the first separator. -/
def jsSplitFirst (s : String) (sep : Char) : String :=
  String.mk (s.data.takeWhile (fun c => c ≠ sep))

/-- `String.prototype.trim`: strip whitespace from both ends. -/
def jsTrim (s : String) : String :=
  String.mk
    (((s.data.dropWhile Char.isWhitespace).reverse.dropWhile
      Char.isWhitespace).reverse)

/-- `String.prototype.toLowerCase` (ASCII case mapping). -/
def strToLower (s : String) : String :=
  String.mk (s.data.map Char.toLower)

/-- `const window = 60000` (one minute). -/
def rateLimitWindow : Nat := 60000

/-- `const limit = endpoint.includes("/auth/") ? 3 : 10`. -/
def endpointLimit (endpoint : String) : Nat :=
  if strIncludes endpoint "/auth/" then 3 else 10

/-- The map key `` `${ip}:${endpoint}` ``. -/
def rlKey (ip endpoint : String) : String := ip ++ ":" ++ endpoint

/-- `Math.ceil(d / 1000)` for a non-negative difference `d`. -/
def ceilDiv1000 (d : Nat) : Nat := (d + 999) / 1000

/-- `checkRateLimit` from `src/middleware.ts`: fixed-window counter on the
`rateLimitMap`, returning the result together with the updated map. -/
def checkRateLimit (ip endpoint : String) (now : Nat)
    (rateLimitMap : List (String × MwRateEntry)) :
    RateLimitResult × List (String × MwRateEntry) :=
  let key := rlKey ip endpoint
  let limit := endpointLimit endpoint
  match rateLimitMap.lookup key with
  | none =>
    (⟨true, none, none⟩, mapSet rateLimitMap key ⟨1, now + rateLimitWindow⟩)
  | some entry =>
    if entry.resetTime ≤ now then
      (⟨true, none, none⟩, mapSet rateLimitMap key ⟨1, now + rateLimitWindow⟩)
    else
      let count := entry.count + 1
      let st := mapSet rateLimitMap key ⟨count, entry.resetTime⟩
      if count > limit then
        (⟨false, some entry.resetTime,
          some ("Rate limit exceeded. Try again in " ++
            toString (ceilDiv1000 (entry.resetTime - now)) ++ " seconds.")⟩, st)
      else
        (⟨true, none, none⟩, st)

/-! ### Rate limiting (`RateLimiter.checkLimit` in the security library) -/

namespace RateLimiter

/-- `RateLimitEntry` interface: `{ count, resetTime, blocked }`. -/
structure RateLimitEntry where
  count : Nat
  resetTime : Nat
  blocked : Bool
deriving DecidableEq

/-- A per-endpoint configuration `{ requests, window }`. -/
structure Config where
  requests : Nat
  window : Nat
deriving DecidableEq

/-- `this.configs[endpoint] || this.configs.default`. -/
def configs (endpoint : String) : Config :=
  if endpoint = "/api/submissions" then ⟨5, 60000⟩
  else if endpoint = "/api/auth/login" then ⟨3, 900000⟩
  else if endpoint = "/api/auth/register" then ⟨2, 3600000⟩
  else if endpoint = "/api/forms" then ⟨10, 60000⟩
  else ⟨100, 60000⟩

/-- Result of `checkLimit`. -/
structure CheckResult where
  allowed : Bool
  remaining : Nat
  resetTime : Option Nat
  message : Option String
deriving DecidableEq

/-- `RateLimiter.checkLimit`: fixed-window counter with per-endpoint
configuration, over the `limits` map. -/
def checkLimit (ip endpoint : String) (now : Nat)
    (limits : List (String × RateLimitEntry)) :
    CheckResult × List (String × RateLimitEntry) :=
  let key := rlKey ip endpoint
  let config := configs endpoint
  let fresh : CheckResult × List (String × RateLimitEntry) :=
    (⟨true, config.requests - 1, none, none⟩,
      mapSet limits key ⟨1, now + config.window, false⟩)
  match limits.lookup key with
  | none => fresh
  | some entry =>
    if entry.resetTime ≤ now then fresh
    else
      let count := entry.count + 1
      if count > config.requests then
        (⟨false, 0, some entry.resetTime,
          some ("Rate limit exceeded. Try again in " ++
            toString (ceilDiv1000 (entry.resetTime - now)) ++ " seconds.")⟩,
          mapSet limits key ⟨count, entry.resetTime, true⟩)
      else
        (⟨true, config.requests - count, some entry.resetTime, none⟩,
          mapSet limits key ⟨count, entry.resetTime, entry.blocked⟩)

end RateLimiter

/-! ### CSRF protection (security library, `CSRFProtection`) -/

namespace CSRFProtection

/-- Entry of the in-memory token store: `{ token, expires, used }`. -/
structure TokenEntry where
  token : String
  expires : Nat
  used : Bool
deriving DecidableEq

/-- `TOKEN_EXPIRY = 3600000` (one hour). -/
def TOKEN_EXPIRY : Nat := 3600000

/-- `MAX_TOKENS_PER_SESSION = 5`. -/
def MAX_TOKENS_PER_SESSION : Nat := 5

/-- The store key `` `${sessionId}:${token}` ``. -/
def csrfKey (sessionId token : String) : String := sessionId ++ ":" ++ token

/-- `CSRFProtection.constantTimeCompare`: length check, then an OR-fold of
the XORs of the character codes, compared against `0`. -/
def constantTimeCompare (a b : String) : Bool :=
  if a.length ≠ b.length then false
  else
    ((a.data.zip b.data).foldl
      (fun r p => r ||| (p.1.toNat ^^^ p.2.toNat)) 0) == 0

/-- `CSRFProtection.cleanupExpiredTokens`: remove entries that are expired or
used (restricted to one session's keys when `sessionId` is given). -/
def cleanupExpiredTokens (sessionId : Option String) (now : Nat)
    (tokens : List (String × TokenEntry)) : List (String × TokenEntry) :=
  tokens.filter (fun p =>
    let shouldClean := p.2.expires < now ∨ p.2.used = true
    match sessionId with
    | some sid => ¬(strStartsWith p.1 (sid ++ ":") = true ∧ shouldClean)
    | none => ¬shouldClean)

/-- First entry attaining the minimal `expires` (the head of the stable
ascending sort by `expires` used in `generateToken`). -/
def minByExpires : List (String × TokenEntry) → Option (String × TokenEntry)
  | [] => none
  | p :: rest =>
    match minByExpires rest with
    | none => some p
    | some q => some (if q.2.expires < p.2.expires then q else p)

/-- `CSRFProtection.generateToken`, with the random 32-byte hex string passed
in as the `token` parameter: cleanup, per-session cap eviction, then store
the fresh token with a one-hour expiry. -/
def generateToken (token sessionId : String) (now : Nat)
    (tokens : List (String × TokenEntry)) :
    String × List (String × TokenEntry) :=
  let tokens := cleanupExpiredTokens (some sessionId) now tokens
  let sessionTokens := tokens.filter (fun p => strStartsWith p.1 (sessionId ++ ":"))
  let tokens :=
    if MAX_TOKENS_PER_SESSION ≤ sessionTokens.length then
      match minByExpires sessionTokens with
      | some oldest => mapDel tokens oldest.1
      | none => tokens
    else tokens
  let expires := now + TOKEN_EXPIRY
  let key := csrfKey sessionId token
  (token, mapSet tokens key ⟨token, expires, false⟩)

/-- `CSRFProtection.validateToken`: format check, lookup, expiry check (with
removal), replay check, mark-as-used, then constant-time comparison. -/
def validateToken (token sessionId : String) (now : Nat)
    (tokens : List (String × TokenEntry)) :
    Bool × List (String × TokenEntry) :=
  if token = "" ∨ token.length ≠ 64 then (false, tokens)
  else
    let key := csrfKey sessionId token
    match tokens.lookup key with
    | none => (false, tokens)
    | some storedToken =>
      if storedToken.expires < now then (false, mapDel tokens key)
      else if storedToken.used then (false, tokens)
      else
        let tokens :=
          mapSet tokens key ⟨storedToken.token, storedToken.expires, true⟩
        (constantTimeCompare token storedToken.token, tokens)

/-- A key of the token store is *dead* when no entry is stored for it or the
stored entry is marked used: `validateToken` can never again succeed on it. -/
def deadKey (tokens : List (String × TokenEntry)) (key : String) : Prop :=
  tokens.lookup key = none ∨ ∃ e, tokens.lookup key = some e ∧ e.used = true

/-- Run a sequence of `validateToken` calls (token, session, time), threading
the token store. -/
def runValidateCalls : List (String × String × Nat) →
    List (String × TokenEntry) → List (String × TokenEntry)
  | [], st => st
  | (tok, sid, t) :: rest, st =>
    runValidateCalls rest (validateToken tok sid t st).2

end CSRFProtection

/-! ### CSRF validation in `src/middleware.ts` (`validateCSRFToken`) -/

/-- Entry of the middleware's own `csrfTokens` map: `{ token, expires }`. -/
structure MwCsrfEntry where
  token : String
  expires : Nat
deriving DecidableEq

/-- `validateCSRFToken` from `src/middleware.ts`: lookup under
`` `${sessionId}:${token}` ``; missing or expired entries are deleted and
rejected. -/
def validateCSRFToken (token sessionId : String) (now : Nat)
    (csrfTokens : List (String × MwCsrfEntry)) :
    Bool × List (String × MwCsrfEntry) :=
  if token = "" then (false, csrfTokens)
  else
    let key := sessionId ++ ":" ++ token
    match csrfTokens.lookup key with
    | none => (false, mapDel csrfTokens key)
    | some entry =>
      if entry.expires < now then (false, mapDel csrfTokens key)
      else (true, csrfTokens)

/-! ### The middleware pipeline (`src/middleware.ts`) -/

/-- A request, reduced to the parts the middleware reads.  Header fields are
`Option String` (`none` models a `null` from `headers.get`). -/
structure MwRequest where
  method : String
  pathname : String
  xForwardedFor : Option String
  xRealIP : Option String
  cfConnectingIP : Option String
  userAgent : Option String
  xCsrfToken : Option String
  cookieAuthToken : Option String
  reqIp : Option String
deriving DecidableEq

/-- Coerce a nullable header to the string JavaScript truthiness sees
(`null` and `""` are both falsy, both mapped to `""`). -/
def jsStr (o : Option String) : String := o.getD ""

/-- `getClientIP` from `src/middleware.ts`: Cloudflare header first, then
`x-forwarded-for` (first entry), then `x-real-ip`, then `request.ip`,
falling back to `"unknown"`. -/
def getClientIP (req : MwRequest) : String :=
  let cf := jsStr req.cfConnectingIP
  let fwd := jsStr req.xForwardedFor
  let real := jsStr req.xRealIP
  if cf ≠ "" then jsTrim (jsSplitFirst cf (Char.ofNat 44))
  else if fwd ≠ "" then jsTrim (jsSplitFirst fwd (Char.ofNat 44))
  else if real ≠ "" then real
  else if jsStr req.reqIp ≠ "" then jsStr req.reqIp
  else "unknown"

/-- `isIPBlocked` from `src/middleware.ts`. -/
def isIPBlocked (ip : String) : Bool :=
  ["0.0.0.0"].contains ip || ip == "unknown" || ip == ""

/-- The user-agent patterns `/bot/i, /crawler/i, /spider/i, /scraper/i,
/curl/i, /wget/i` (case-insensitive substring tests). -/
def suspiciousPatterns : List String :=
  ["bot", "crawler", "spider", "scraper", "curl", "wget"]

/-- `detectSuspiciousActivity` from `src/middleware.ts`: missing or short
user agent, or a match of one of the suspicious patterns. -/
def detectSuspiciousActivity (req : MwRequest) : Bool :=
  let userAgent := jsStr req.userAgent
  if userAgent = "" ∨ userAgent.length < 10 then true
  else suspiciousPatterns.any (fun p => strIncludes (strToLower userAgent) p)

/-- `PROTECTED_ROUTES`. -/
def PROTECTED_ROUTES : List String :=
  ["/api/forms", "/api/dashboard", "/api/export"]

/-- `CSRF_PROTECTED_ROUTES`. -/
def CSRF_PROTECTED_ROUTES : List String :=
  ["/api/forms", "/api/submissions", "/api/auth/login", "/api/auth/register"]

/-- `RATE_LIMITED_ROUTES`. -/
def RATE_LIMITED_ROUTES : List String :=
  ["/api/submissions", "/api/forms", "/api/auth/login", "/api/auth/register"]

/-- The payload `jwt.verify` yields on success (`decoded.userId`,
`decoded.email`, `decoded.role`). -/
structure JwtPayload where
  userId : String
  email : String
  role : String
deriving DecidableEq

/-- Outcome of the middleware: a JSON error response with a status, or
`NextResponse.next()` carrying the headers the middleware set. -/
inductive MwResult where
  | res (status : Nat) (error : String)
  | next (headers : List (String × String))
deriving DecidableEq

/-- The two in-process maps the middleware owns. -/
structure MwState where
  rl : List (String × MwRateEntry)
  csrf : List (String × MwCsrfEntry)
deriving DecidableEq

/-- The security headers of step 6 (`NODE_ENV` is modelled as not
`"production"`, so no `Strict-Transport-Security`). -/
def securityHeaders : List (String × String) :=
  [("X-Content-Type-Options", "nosniff"),
   ("X-Frame-Options", "DENY"),
   ("X-XSS-Protection", "1; mode=block"),
   ("Referrer-Policy", "strict-origin-when-cross-origin"),
   ("Permissions-Policy", "camera=(), microphone=(), geolocation=()"),
   ("Content-Security-Policy",
    "default-src \x27self\x27; script-src \x27self\x27 \x27unsafe-inline\x27 \x27unsafe-eval\x27; style-src \x27self\x27 \x27unsafe-inline\x27; img-src \x27self\x27 data: https:; font-src \x27self\x27; connect-src \x27self\x27 https://viacep.com.br https://www.receitaws.com.br; frame-ancestors \x27none\x27")]

/-- The `middleware` function from `src/middleware.ts`, with `jwt.verify`
abstracted as the `verify` parameter (`none` models a thrown verification
error).  Steps: IP block, suspicious activity, rate limiting on rate-limited
routes, CSRF on mutating requests to CSRF routes, cookie/JWT authentication
on protected routes, security headers otherwise. -/
def middleware (verify : String → Option JwtPayload) (req : MwRequest)
    (now : Nat) (st : MwState) : MwResult × MwState :=
  let pathname := req.pathname
  let clientIP := getClientIP req
  if isIPBlocked clientIP then (.res 403 "Access denied", st)
  else if detectSuspiciousActivity req then
    (.res 403 "Suspicious activity detected", st)
  else
    let step5 : MwState → MwResult × MwState := fun stx =>
      if PROTECTED_ROUTES.any (fun r => strStartsWith pathname r) then
        let token := jsStr req.cookieAuthToken
        if token = "" then (.res 401 "Authentication required", stx)
        else
          match verify token with
          | some decoded =>
            (.next [("x-user-id", decoded.userId),
                    ("x-user-email", decoded.email),
                    ("x-user-role", decoded.role)], stx)
          | none => (.res 401 "Invalid token", stx)
      else (.next securityHeaders, stx)
    let step4 : MwState → MwResult × MwState := fun stx =>
      if (req.method = "POST" ∨ req.method = "PUT" ∨ req.method = "DELETE") ∧
          CSRF_PROTECTED_ROUTES.any (fun r => strStartsWith pathname r) then
        let csrfToken := jsStr req.xCsrfToken
        if csrfToken = "" then (.res 403 "CSRF token required", stx)
        else
          let vres := validateCSRFToken csrfToken clientIP now stx.csrf
          if vres.1 = false then
            (.res 403 "Invalid CSRF token", { stx with csrf := vres.2 })
          else step5 { stx with csrf := vres.2 }
      else step5 stx
    if RATE_LIMITED_ROUTES.any (fun r => strStartsWith pathname r) then
      let lc := checkRateLimit clientIP pathname now st.rl
      if lc.1.allowed = false then
        (.res 429 (jsStr lc.1.message), { st with rl := lc.2 })
      else step4 { st with rl := lc.2 }
    else step4 st

/-! ### The submissions POST handler (`app/api/submissions/route.ts`) -/

namespace Submissions

/-- A form field as stored in the form's `fields` JSON: the parts the
handler reads (`id`, `label`, `required`). -/
structure SubFormField where
  id : String
  label : String
  required : Bool
deriving DecidableEq

/-- A row of the `forms` table, with `fields` already parsed. -/
structure SubForm where
  id : String
  status : String
  fields : List SubFormField
deriving DecidableEq

/-- A submitted JSON value (`z.any()`), reduced to the primitive shapes. -/
inductive JsValue where
  | str (s : String)
  | num (n : Int)
  | boolean (b : Bool)
  | null
deriving DecidableEq

/-- JavaScript falsiness of a submitted value (`!data[field.id]`). -/
def jsFalsy : JsValue → Bool
  | .str s => s == ""
  | .num n => n == 0
  | .boolean b => !b
  | .null => true

/-- JavaScript `toString()` of a submitted value. -/
def jsToString : JsValue → String
  | .str s => s
  | .num n => toString n
  | .boolean b => cond b "true" "false"
  | .null => "null"

/-- A row of the `submissions` table. -/
structure Submission where
  formId : String
  data : List (String × JsValue)
  ipAddress : String
  userAgent : String
  createdAt : Nat
  integrationDone : Bool
deriving DecidableEq

/-- The database state the handler touches. -/
structure Db where
  forms : List SubForm
  submissions : List Submission
deriving DecidableEq

/-- A request body that passed `submissionSchema` (`formId` string,
`data` record). -/
structure SubBody where
  formId : String
  data : List (String × JsValue)
deriving DecidableEq

/-- `SELECT * FROM forms WHERE id = ? AND status = 'active'`. -/
def findActiveForm (db : Db) (formId : String) : Option SubForm :=
  db.forms.find? (fun f => f.id == formId && f.status == "active")

/-- The required fields whose submitted value is absent, falsy, or blank
after `toString().trim()`. -/
def requiredMissing (form : SubForm) (data : List (String × JsValue)) :
    List SubFormField :=
  (form.fields.filter (fun f => f.required)).filter (fun f =>
    match data.lookup f.id with
    | none => true
    | some v => jsFalsy v || jsTrim (jsToString v) == "")

/-- `SELECT COUNT(*) FROM submissions WHERE ip_address = ? AND created_at >
datetime('now', '-1 hour')`. -/
def recentCount (db : Db) (clientIP : String) (now : Nat) : Nat :=
  (db.submissions.filter
    (fun s => s.ipAddress == clientIP && decide (now < s.createdAt + 3600000))).length

/-- The submissions `POST` handler: CSRF header checks, schema validation
(`body = none` models a body rejected by `safeParse`, and `formId` must be
non-empty), active-form lookup, required-field check, per-IP rate limit,
then the `INSERT` immediately followed by the `UPDATE` of the same row's
`integration_results`.  Returns the HTTP status and the new database. -/
def submissionsPOST (xCsrfToken : Option String) (body : Option SubBody)
    (xForwardedFor : Option String) (userAgent : Option String)
    (now : Nat) (db : Db) : Nat × Db :=
  let csrfToken := jsStr xCsrfToken
  if csrfToken = "" then (403, db)
  else if csrfToken.length < 10 then (403, db)
  else
    match body with
    | none => (400, db)
    | some b =>
      if b.formId = "" then (400, db)
      else
        match findActiveForm db b.formId with
        | none => (404, db)
        | some form =>
          if requiredMissing form b.data ≠ [] then (400, db)
          else
            let clientIP := if jsStr xForwardedFor = "" then "unknown"
              else jsStr xForwardedFor
            if 10 ≤ recentCount db clientIP now then (429, db)
            else
              let ua := if jsStr userAgent = "" then "unknown"
                else jsStr userAgent
              (201, { db with submissions := db.submissions ++
                [⟨b.formId, b.data, clientIP, ua, now, true⟩] })

end Submissions

/-! ### CNPJ validation (`src/lib/auto-fill.ts`, `AutoFillService.validateCNPJ`) -/

namespace AutoFillService

/-- Is `c` an ASCII decimal digit (what `\d` matches and `parseInt` accepts)? -/
def isDigitChar (c : Char) : Bool := decide ('0' ≤ c ∧ c ≤ '9')

/-- `Number.parseInt` on a one-character string: a decimal digit parses to its
value, anything else gives `NaN` (embedded as `none`). -/
def parseIntChar (c : Char) : Option Nat :=
  if '0' ≤ c ∧ c ≤ '9' then some (c.toNat - 48) else none

/-- The weight update `weight = weight === 2 ? 9 : weight - 1`. -/
def nextWeight (w : Nat) : Nat := if w = 2 then 9 else w - 1

/-- The loop `sum += Number.parseInt(cnpj[i]) * weight` over the given
characters, starting from weight `w`; `NaN` contaminates the sum (`none`). -/
def loopSum : List Char → Nat → Option Nat
  | [], _ => some 0
  | c :: cs, w =>
    match parseIntChar c, loopSum cs (nextWeight w) with
    | some d, some s => some (d * w + s)
    | _, _ => none

/-- `sum % 11 < 2 ? 0 : 11 - (sum % 11)`. -/
def checkDigit (sum : Nat) : Nat :=
  if sum % 11 < 2 then 0 else 11 - sum % 11

/-- `/^(\d)\1{13}$/.test(cnpj)` specialised to the (already length-checked)
14-character string: the first character is a digit and repeats throughout. -/
def repeatedDigit : List Char → Bool
  | [] => false
  | c :: rest => isDigitChar c && rest.all (· == c)

/-- `AutoFillService.validateCNPJ` from `src/lib/auto-fill.ts`: length check,
repeated-digit rejection, two weighted mod-11 check digits compared against
characters 13 and 14 (with JavaScript `NaN === x` evaluating to `false`). -/
def validateCNPJ (cnpj : String) : Bool :=
  let cs := cnpj.data
  if cs.length ≠ 14 then false
  else if repeatedDigit cs then false
  else
    (match cs[12]?.bind parseIntChar, loopSum (cs.take 12) 5 with
     | some a, some s => a == checkDigit s
     | _, _ => false) &&
    (match cs[13]?.bind parseIntChar, loopSum (cs.take 13) 6 with
     | some b, some s => b == checkDigit s
     | _, _ => false)

/-- The claim's first weight vector `5,4,3,2,9,8,7,6,5,4,3,2`. -/
def cnpjWeights1 : List Nat := [5, 4, 3, 2, 9, 8, 7, 6, 5, 4, 3, 2]

/-- The claim's second weight vector `6,5,4,3,2,9,8,7,6,5,4,3,2`. -/
def cnpjWeights2 : List Nat := [6, 5, 4, 3, 2, 9, 8, 7, 6, 5, 4, 3, 2]

/-- Weighted digit sum `Σ dᵢ·wᵢ`. -/
def weightedSum (ds ws : List Nat) : Nat :=
  (List.zipWith (fun d w => d * w) ds ws).sum

/-- Are all characters of the list equal to its head? -/
def allSameChar : List Char → Bool
  | [] => true
  | c :: rest => rest.all (· == c)

/-- The claim's characterisation of `validateCNPJ`, stated in its words: a
14-character all-digit string, not one digit repeated 14 times, whose 13th
and 14th characters equal the two weighted mod-11 check digits computed from
the preceding digits. -/
def validateCNPJSpec (s : String) : Bool :=
  let cs := s.data
  let ds := cs.map (fun c => c.toNat - 48)
  (cs.length == 14) &&
  cs.all isDigitChar &&
  !allSameChar cs &&
  (ds[12]? == some (checkDigit (weightedSum (ds.take 12) cnpjWeights1))) &&
  (ds[13]? == some (checkDigit (weightedSum (ds.take 13) cnpjWeights2)))

/-- The weight sequence the loop generates: `n` weights starting at `w`. -/
def genWeights : Nat → Nat → List Nat
  | 0, _ => []
  | n + 1, w => w :: genWeights n (nextWeight w)

end AutoFillService

/-! ### The form exporter (`src/lib/form-exporter.ts`) -/

namespace FormExporter

/-- The `FormField` interface. -/
structure FormField where
  id : String
  type : String
  label : String
  placeholder : Option String
  required : Bool
  options : Option (List String)
deriving DecidableEq

/-- The `Form` interface. -/
structure Form where
  id : String
  title : String
  description : String
  fields : List FormField
  status : String
  created_at : String
  updated_at : String
deriving DecidableEq

/-- `HTMLExportOptions`, with the destructuring defaults of
`exportAsHTML`. -/
structure HTMLExportOptions where
  includeValidation : Bool := true
  includeAutoFill : Bool := true
  includeCSS : Bool := true
  includeBootstrap : Bool := false
  submitUrl : String := ""
  theme : String := "default"
deriving DecidableEq

/-- `JSONExportOptions`, with the destructuring defaults of
`exportAsJSON`. -/
structure JSONExportOptions where
  includeMetadata : Bool := true
  includeValidation : Bool := true
  minify : Bool := false
  version : String := "1.0"
deriving DecidableEq

/-- One character of `escapeHtml`'s output: the serialisation of a DOM text
node escapes `&`, `<` and `>` as character entities. -/
def escChar (c : Char) : String :=
  if c = '&' then "&amp;"
  else if c = '<' then "&lt;"
  else if c = '>' then "&gt;"
  else String.mk [c]

/-- `FormExporter.escapeHtml`: `div.textContent = text; return div.innerHTML`
— the text-node serialisation, which escapes `&`, `<`, `>`. -/
def escapeHtml (text : String) : String :=
  String.join (text.data.map escChar)

/-- The `baseCSS` template of `generateCSS`. -/
def baseCSS : String :=
  "\n/* Form Builder Export - Base Styles */\n* \x7b\n    box-sizing: border-box;\n\x7d\n\nbody \x7b\n    font-family: -apple-system, BlinkMacSystemFont, \x27Segoe UI\x27, Roboto, sans-serif;\n    line-height: 1.6;\n    color: #333;\n    background-color: #f5f5f5;\n    margin: 0;\n    padding: 20px;\n\x7d\n\n.container \x7b\n    max-width: 800px;\n    margin: 0 auto;\n\x7d\n\n.form-container \x7b\n    background: white;\n    border-radius: 8px;\n    box-shadow: 0 2px 10px rgba(0, 0, 0, 0.1);\n    padding: 40px;\n\x7d\n\n.form-header \x7b\n    margin-bottom: 30px;\n    text-align: center;\n\x7d\n\n.form-header h1 \x7b\n    color: #2c3e50;\n    margin: 0 0 10px 0;\n    font-size: 2rem;\n    font-weight: 600;\n\x7d\n\n.form-description \x7b\n    color: #666;\n    font-size: 1.1rem;\n    margin: 0;\n\x7d\n\n.form \x7b\n    max-width: 100%;\n\x7d\n\n.form-group \x7b\n    margin-bottom: 24px;\n\x7d\n\n.form-label \x7b\n    display: block;\n    margin-bottom: 8px;\n    font-weight: 500;\n    color: #374151;\n    font-size: 14px;\n\x7d\n\n.required \x7b\n    color: #ef4444;\n    margin-left: 4px;\n\x7d\n\n.form-control \x7b\n    width: 100%;\n    padding: 12px 16px;\n    border: 2px solid #e5e7eb;\n    border-radius: 6px;\n    font-size: 16px;\n    transition: border-color 0.2s, box-shadow 0.2s;\n    background-color: #fff;\n\x7d\n\n.form-control:focus \x7b\n    outline: none;\n    border-color: #3b82f6;\n    box-shadow: 0 0 0 3px rgba(59, 130, 246, 0.1);\n\x7d\n\n.form-control.error \x7b\n    border-color: #ef4444;\n\x7d\n\n.form-control.success \x7b\n    border-color: #10b981;\n\x7d\n\ntextarea.form-control \x7b\n    resize: vertical;\n    min-height: 100px;\n\x7d\n\n.radio-group \x7b\n    display: flex;\n    flex-direction: column;\n    gap: 8px;\n\x7d\n\n.radio-option \x7b\n    display: flex;\n    align-items: center;\n    gap: 8px;\n\x7d\n\n.radio-option input[type=\"radio\"] \x7b\n    margin: 0;\n\x7d\n\n.checkbox-wrapper \x7b\n    display: flex;\n    align-items: flex-start;\n    gap: 8px;\n\x7d\n\n.checkbox-wrapper input[type=\"checkbox\"] \x7b\n    margin: 4px 0 0 0;\n\x7d\n\n.checkbox-label \x7b\n    margin: 0;\n    cursor: pointer;\n\x7d\n\n.field-error \x7b\n    color: #ef4444;\n    font-size: 14px;\n    margin-top: 4px;\n    min-height: 20px;\n\x7d\n\n.submit-group \x7b\n    margin-top: 32px;\n    text-align: center;\n\x7d\n\n.btn \x7b\n    display: inline-flex;\n    align-items: center;\n    justify-content: center;\n    padding: 12px 32px;\n    border: none;\n    border-radius: 6px;\n    font-size: 16px;\n    font-weight: 500;\n    cursor: pointer;\n    transition: all 0.2s;\n    text-decoration: none;\n    min-width: 140px;\n\x7d\n\n.btn-primary \x7b\n    background-color: #3b82f6;\n    color: white;\n\x7d\n\n.btn-primary:hover:not(:disabled) \x7b\n    background-color: #2563eb;\n    transform: translateY(-1px);\n\x7d\n\n.btn:disabled \x7b\n    opacity: 0.6;\n    cursor: not-allowed;\n    transform: none;\n\x7d\n\n.btn-loading \x7b\n    display: none;\n\x7d\n\n.spinner \x7b\n    width: 16px;\n    height: 16px;\n    border: 2px solid transparent;\n    border-top: 2px solid currentColor;\n    border-radius: 50%;\n    animation: spin 1s linear infinite;\n    margin-right: 8px;\n\x7d\n\n@keyframes spin \x7b\n    to \x7b transform: rotate(360deg); \x7d\n\x7d\n\n.form-messages \x7b\n    margin-top: 20px;\n    text-align: center;\n\x7d\n\n.message \x7b\n    padding: 12px 16px;\n    border-radius: 6px;\n    margin-bottom: 12px;\n\x7d\n\n.message.success \x7b\n    background-color: #d1fae5;\n    color: #065f46;\n    border: 1px solid #a7f3d0;\n\x7d\n\n.message.error \x7b\n    background-color: #fee2e2;\n    color: #991b1b;\n    border: 1px solid #fca5a5;\n\x7d\n\n.auto-fill-indicator \x7b\n    font-size: 12px;\n    color: #6b7280;\n    font-weight: normal;\n\x7d\n\n.auto-fill-indicator.loading::after \x7b\n    content: \" (Auto-filling...)\";\n    color: #3b82f6;\n\x7d\n\n.auto-fill-indicator.success::after \x7b\n    content: \" (Auto-filled ✓)\";\n    color: #10b981;\n\x7d\n\n/* Responsive Design */\n@media (max-width: 768px) \x7b\n    body \x7b\n        padding: 10px;\n    \x7d\n    \n    .form-container \x7b\n        padding: 20px;\n    \x7d\n    \n    .form-header h1 \x7b\n        font-size: 1.5rem;\n    \x7d\n\x7d\n"

/-- `getDarkThemeCSS`. -/
def getDarkThemeCSS : String :=
  "\n/* Dark Theme */\n@media (prefers-color-scheme: dark) \x7b\n    body \x7b\n        background-color: #1f2937;\n        color: #f9fafb;\n    \x7d\n    \n    .form-container \x7b\n        background: #374151;\n        box-shadow: 0 2px 10px rgba(0, 0, 0, 0.3);\n    \x7d\n    \n    .form-header h1 \x7b\n        color: #f9fafb;\n    \x7d\n    \n    .form-description \x7b\n        color: #d1d5db;\n    \x7d\n    \n    .form-label \x7b\n        color: #e5e7eb;\n    \x7d\n    \n    .form-control \x7b\n        background-color: #4b5563;\n        border-color: #6b7280;\n        color: #f9fafb;\n    \x7d\n    \n    .form-control:focus \x7b\n        border-color: #60a5fa;\n        box-shadow: 0 0 0 3px rgba(96, 165, 250, 0.1);\n    \x7d\n\x7d\n"

/-- `getValidationJS`. -/
def getValidationJS : String :=
  "\n// Form Validation\nfunction initializeValidation() \x7b\n    const inputs = document.querySelectorAll(\x27.form-control, input[type=\"radio\"], input[type=\"checkbox\"]\x27);\n    \n    inputs.forEach(input => \x7b\n        input.addEventListener(\x27blur\x27, () => validateField(input));\n        input.addEventListener(\x27input\x27, () => clearFieldError(input));\n    \x7d);\n\x7d\n\nfunction validateField(field) \x7b\n    const fieldType = field.dataset.validation || field.type;\n    const value = getFieldValue(field);\n    const isRequired = field.hasAttribute(\x27required\x27);\n    \n    clearFieldError(field);\n    \n    if (isRequired && !value) \x7b\n        showFieldError(field, \x27This field is required\x27);\n        return false;\n    \x7d\n    \n    if (value) \x7b\n        switch (fieldType) \x7b\n            case \x27email\x27:\n                if (!/^[^\\s@]+@[^\\s@]+\\.[^\\s@]+$/.test(value)) \x7b\n                    showFieldError(field, \x27Please enter a valid email address\x27);\n                    return false;\n                \x7d\n                break;\n            case \x27cep\x27:\n                const cleanCep = value.replace(/\\D/g, \x27\x27);\n                if (cleanCep.length !== 8) \x7b\n                    showFieldError(field, \x27CEP must have 8 digits\x27);\n                    return false;\n                \x7d\n                break;\n            case \x27cnpj\x27:\n                const cleanCnpj = value.replace(/\\D/g, \x27\x27);\n                if (cleanCnpj.length !== 14 || !validateCNPJ(cleanCnpj)) \x7b\n                    showFieldError(field, \x27Please enter a valid CNPJ\x27);\n                    return false;\n                \x7d\n                break;\n        \x7d\n    \x7d\n    \n    field.classList.add(\x27success\x27);\n    return true;\n\x7d\n\nfunction validateCNPJ(cnpj) \x7b\n    if (cnpj.length !== 14) return false;\n    if (/^(\\d)\\1\x7b13\x7d$/.test(cnpj)) return false;\n    \n    let sum = 0;\n    let weight = 5;\n    for (let i = 0; i < 12; i++) \x7b\n        sum += parseInt(cnpj[i]) * weight;\n        weight = weight === 2 ? 9 : weight - 1;\n    \x7d\n    const digit1 = sum % 11 < 2 ? 0 : 11 - (sum % 11);\n    \n    sum = 0;\n    weight = 6;\n    for (let i = 0; i < 13; i++) \x7b\n        sum += parseInt(cnpj[i]) * weight;\n        weight = weight === 2 ? 9 : weight - 1;\n    \x7d\n    const digit2 = sum % 11 < 2 ? 0 : 11 - (sum % 11);\n    \n    return parseInt(cnpj[12]) === digit1 && parseInt(cnpj[13]) === digit2;\n\x7d\n\nfunction getFieldValue(field) \x7b\n    if (field.type === \x27radio\x27) \x7b\n        const checked = document.querySelector(`input[name=\"$\x7bfield.name\x7d\"]:checked`);\n        return checked ? checked.value : \x27\x27;\n    \x7d\n    if (field.type === \x27checkbox\x27) \x7b\n        return field.checked ? field.value : \x27\x27;\n    \x7d\n    return field.value.trim();\n\x7d\n\nfunction showFieldError(field, message) \x7b\n    const errorElement = document.getElementById(field.id + \x27_error\x27);\n    if (errorElement) \x7b\n        errorElement.textContent = message;\n    \x7d\n    field.classList.add(\x27error\x27);\n    field.classList.remove(\x27success\x27);\n\x7d\n\nfunction clearFieldError(field) \x7b\n    const errorElement = document.getElementById(field.id + \x27_error\x27);\n    if (errorElement) \x7b\n        errorElement.textContent = \x27\x27;\n    \x7d\n    field.classList.remove(\x27error\x27);\n\x7d\n\nfunction validateForm() \x7b\n    const fields = document.querySelectorAll(\x27.form-control, input[type=\"radio\"], input[type=\"checkbox\"]\x27);\n    let isValid = true;\n    \n    fields.forEach(field => \x7b\n        if (!validateField(field)) \x7b\n            isValid = false;\n        \x7d\n    \x7d);\n    \n    return isValid;\n\x7d\n"

/-- `getAutoFillJS`. -/
def getAutoFillJS : String :=
  "\n// Auto-fill functionality\nfunction initializeAutoFill() \x7b\n    const cepFields = document.querySelectorAll(\x27input[data-validation=\"cep\"]\x27);\n    const cnpjFields = document.querySelectorAll(\x27input[data-validation=\"cnpj\"]\x27);\n    \n    cepFields.forEach(field => \x7b\n        field.addEventListener(\x27input\x27, debounce(() => handleCEPInput(field), 500));\n    \x7d);\n    \n    cnpjFields.forEach(field => \x7b\n        field.addEventListener(\x27input\x27, debounce(() => handleCNPJInput(field), 500));\n    \x7d);\n\x7d\n\nfunction handleCEPInput(field) \x7b\n    const cep = field.value.replace(/\\D/g, \x27\x27);\n    if (cep.length === 8) \x7b\n        fetchCEPData(cep, field);\n    \x7d\n\x7d\n\nfunction handleCNPJInput(field) \x7b\n    const cnpj = field.value.replace(/\\D/g, \x27\x27);\n    if (cnpj.length === 14 && validateCNPJ(cnpj)) \x7b\n        fetchCNPJData(cnpj, field);\n    \x7d\n\x7d\n\nasync function fetchCEPData(cep, field) \x7b\n    const indicator = document.getElementById(field.id + \x27_indicator\x27);\n    if (indicator) \x7b\n        indicator.className = \x27auto-fill-indicator loading\x27;\n    \x7d\n    \n    try \x7b\n        const response = await fetch(`https://viacep.com.br/ws/$\x7bcep\x7d/json/`);\n        const data = await response.json();\n        \n        if (!data.erro) \x7b\n            autoFillAddressFields(data);\n            if (indicator) \x7b\n                indicator.className = \x27auto-fill-indicator success\x27;\n            \x7d\n        \x7d else \x7b\n            if (indicator) \x7b\n                indicator.className = \x27auto-fill-indicator\x27;\n            \x7d\n        \x7d\n    \x7d catch (error) \x7b\n        console.error(\x27Error fetching CEP data:\x27, error);\n        if (indicator) \x7b\n            indicator.className = \x27auto-fill-indicator\x27;\n        \x7d\n    \x7d\n\x7d\n\nasync function fetchCNPJData(cnpj, field) \x7b\n    const indicator = document.getElementById(field.id + \x27_indicator\x27);\n    if (indicator) \x7b\n        indicator.className = \x27auto-fill-indicator loading\x27;\n    \x7d\n    \n    try \x7b\n        const response = await fetch(`https://www.receitaws.com.br/v1/cnpj/$\x7bcnpj\x7d`);\n        const data = await response.json();\n        \n        if (data.status === \x27OK\x27) \x7b\n            autoFillCompanyFields(data);\n            if (indicator) \x7b\n                indicator.className = \x27auto-fill-indicator success\x27;\n            \x7d\n        \x7d else \x7b\n            if (indicator) \x7b\n                indicator.className = \x27auto-fill-indicator\x27;\n            \x7d\n        \x7d\n    \x7d catch (error) \x7b\n        console.error(\x27Error fetching CNPJ data:\x27, error);\n        if (indicator) \x7b\n            indicator.className = \x27auto-fill-indicator\x27;\n        \x7d\n    \x7d\n\x7d\n\nfunction autoFillAddressFields(data) \x7b\n    const fieldMappings = \x7b\n        \x27address\x27: data.logradouro,\n        \x27neighborhood\x27: data.bairro,\n        \x27city\x27: data.localidade,\n        \x27state\x27: data.uf\n    \x7d;\n    \n    Object.entries(fieldMappings).forEach(([fieldName, value]) => \x7b\n        const field = document.querySelector(`[name*=\"$\x7bfieldName\x7d\"], [id*=\"$\x7bfieldName\x7d\"]`);\n        if (field && value) \x7b\n            field.value = value;\n            field.dispatchEvent(new Event(\x27input\x27));\n        \x7d\n    \x7d);\n\x7d\n\nfunction autoFillCompanyFields(data) \x7b\n    const fieldMappings = \x7b\n        \x27companyName\x27: data.nome,\n        \x27fantasyName\x27: data.fantasia,\n        \x27companyAddress\x27: data.logradouro,\n        \x27companyCity\x27: data.municipio,\n        \x27companyState\x27: data.uf,\n        \x27companyPhone\x27: data.telefone\n    \x7d;\n    \n    Object.entries(fieldMappings).forEach(([fieldName, value]) => \x7b\n        const field = document.querySelector(`[name*=\"$\x7bfieldName\x7d\"], [id*=\"$\x7bfieldName\x7d\"]`);\n        if (field && value) \x7b\n            field.value = value;\n            field.dispatchEvent(new Event(\x27input\x27));\n        \x7d\n    \x7d);\n\x7d\n\nfunction debounce(func, wait) \x7b\n    let timeout;\n    return function executedFunction(...args) \x7b\n        const later = () => \x7b\n            clearTimeout(timeout);\n            func(...args);\n        \x7d;\n        clearTimeout(timeout);\n        timeout = setTimeout(later, wait);\n    \x7d;\n\x7d\n"

/-- The client-side validation snippet of `getSubmitJS` (when a submit
URL is configured). -/
def submitValidateSnippet : String :=
  "\n    if (typeof validateForm === \x27function\x27 && !validateForm()) \x7b\n        showMessage(\x27Please fix the errors above\x27, \x27error\x27);\n        return;\n    \x7d\n    "

/-- The `fetch` submission snippet of `getSubmitJS`, around the submit
URL. -/
def submitFetchA : String :=
  "\n        const response = await fetch(\x27"

def submitFetchB : String :=
  "\x27, \x7b\n            method: \x27POST\x27,\n            headers: \x7b\n                \x27Content-Type\x27: \x27application/json\x27,\n            \x7d,\n            body: JSON.stringify(data)\n        \x7d);\n        \n        if (response.ok) \x7b\n            showMessage(\x27Form submitted successfully!\x27, \x27success\x27);\n            form.reset();\n        \x7d else \x7b\n            throw new Error(\x27Submission failed\x27);\n        \x7d\n        "

/-- The console-logging snippet of `getSubmitJS` (no submit URL). -/
def submitConsoleSnippet : String :=
  "\n        // Log form data (replace with actual submission logic)\n        console.log(\x27Form data:\x27, data);\n        showMessage(\x27Form data logged to console (configure submitUrl for actual submission)\x27, \x27success\x27);\n        "

/-- `getSubmitJS`. -/
def getSubmitJS (submitUrl : String) : String :=
  "\n// Form submission\nasync function handleSubmit(event) \x7b\n    event.preventDefault();\n    \n    const form = event.target;\n    const submitBtn = document.getElementById(\x27submit-btn\x27);\n    const btnText = submitBtn.querySelector(\x27.btn-text\x27);\n    const btnLoading = submitBtn.querySelector(\x27.btn-loading\x27);\n    \n    // Validate form if validation is enabled\n    " ++
  (if submitUrl ≠ "" then submitValidateSnippet else "") ++
  "\n    \n    // Show loading state\n    submitBtn.disabled = true;\n    btnText.style.display = \x27none\x27;\n    btnLoading.style.display = \x27flex\x27;\n    \n    try \x7b\n        const formData = new FormData(form);\n        const data = Object.fromEntries(formData.entries());\n        \n        " ++
  (if submitUrl ≠ "" then submitFetchA ++ submitUrl ++ submitFetchB
      else submitConsoleSnippet) ++
  "\n        \n    \x7d catch (error) \x7b\n        console.error(\x27Submission error:\x27, error);\n        showMessage(\x27Failed to submit form. Please try again.\x27, \x27error\x27);\n    \x7d finally \x7b\n        // Reset button state\n        submitBtn.disabled = false;\n        btnText.style.display = \x27inline\x27;\n        btnLoading.style.display = \x27none\x27;\n    \x7d\n\x7d\n\nfunction showMessage(text, type) \x7b\n    const messagesContainer = document.getElementById(\x27form-messages\x27);\n    const message = document.createElement(\x27div\x27);\n    message.className = `message $\x7btype\x7d`;\n    message.textContent = text;\n    \n    messagesContainer.innerHTML = \x27\x27;\n    messagesContainer.appendChild(message);\n    \n    // Auto-hide success messages\n    if (type === \x27success\x27) \x7b\n        setTimeout(() => \x7b\n            message.remove();\n        \x7d, 5000);\n    \x7d\n\x7d\n"

/-- `getBootstrapCSS`. -/
def getBootstrapCSS : String :=
  "<link href=\"https://cdn.jsdelivr.net/npm/bootstrap@5.3.0/dist/css/bootstrap.min.css\" rel=\"stylesheet\">"

/-- `generateCSS`. -/
def generateCSS (theme : String) : String :=
  baseCSS ++ (if theme = "dark" then getDarkThemeCSS else "")

/-- `generateJavaScript` (the `form` parameter is unused in the source). -/
def generateJavaScript (_form : Form) (options : HTMLExportOptions) : String :=
  let validationJS := if options.includeValidation then getValidationJS else ""
  let autoFillJS := if options.includeAutoFill then getAutoFillJS else ""
  let submitJS := getSubmitJS options.submitUrl
  "<script>\n" ++
  (validationJS) ++
  "\n" ++
  (autoFillJS) ++
  "\n" ++
  (submitJS) ++
  "\n\n// Initialize form\ndocument.addEventListener(\x27DOMContentLoaded\x27, function() \x7b\n    initializeForm();\n\x7d);\n\nfunction initializeForm() \x7b\n    const form = document.getElementById(\x27exported-form\x27);\n    if (!form) return;\n\n    // Add event listeners\n    form.addEventListener(\x27submit\x27, handleSubmit);\n    \n    " ++
  (if options.includeValidation then "initializeValidation();" else "") ++
  "\n    " ++
  (if options.includeAutoFill then "initializeAutoFill();" else "") ++
  "\n\x7d\n</script>"

/-- JavaScript `x || d` for an optional string (both `undefined` and `""`
fall back to the default). -/
def jsOr (o : Option String) (d : String) : String :=
  match o with
  | none => d
  | some s => if s = "" then d else s

/-- `generateFieldHTML`: the per-field template of the HTML exporter. -/
def generateFieldHTML : FormField → String := fun field =>
  let fieldId := "field_" ++ field.id
  let requiredAttr := if field.required then "required" else ""
  let requiredLabel := if field.required then
    "<span class=\"required\">*</span>" else ""
  if field.type = "text" ∨ field.type = "email" ∨ field.type = "phone" then
    "<div class=\"form-group\" data-field-type=\"" ++
    (field.type) ++
    "\">\n            <label for=\"" ++
    (fieldId) ++
    "\" class=\"form-label\">\n                " ++
    (escapeHtml field.label) ++
    (requiredLabel) ++
    "\n            </label>\n            <input \n                type=\"" ++
    (if field.type = "phone" then "tel" else field.type) ++
    "\" \n                id=\"" ++
    (fieldId) ++
    "\" \n                name=\"" ++
    (field.id) ++
    "\"\n                class=\"form-control\" \n                placeholder=\"" ++
    (escapeHtml (jsOr field.placeholder "")) ++
    "\"\n                " ++
    (requiredAttr) ++
    "\n                data-validation=\"" ++
    (field.type) ++
    "\"\n            >\n            <div class=\"field-error\" id=\"" ++
    (fieldId) ++
    "_error\"></div>\n        </div>"
  else if field.type = "cep" then
    "<div class=\"form-group\" data-field-type=\"cep\">\n            <label for=\"" ++
    (fieldId) ++
    "\" class=\"form-label\">\n                " ++
    (escapeHtml field.label) ++
    (requiredLabel) ++
    "\n                <span class=\"auto-fill-indicator\" id=\"" ++
    (fieldId) ++
    "_indicator\"></span>\n            </label>\n            <input \n                type=\"text\" \n                id=\"" ++
    (fieldId) ++
    "\" \n                name=\"" ++
    (field.id) ++
    "\"\n                class=\"form-control\" \n                placeholder=\"" ++
    (escapeHtml (jsOr field.placeholder "Ex: 12345-678")) ++
    "\"\n                " ++
    (requiredAttr) ++
    "\n                data-validation=\"cep\"\n                maxlength=\"9\"\n            >\n            <div class=\"field-error\" id=\"" ++
    (fieldId) ++
    "_error\"></div>\n        </div>"
  else if field.type = "cnpj" then
    "<div class=\"form-group\" data-field-type=\"cnpj\">\n            <label for=\"" ++
    (fieldId) ++
    "\" class=\"form-label\">\n                " ++
    (escapeHtml field.label) ++
    (requiredLabel) ++
    "\n                <span class=\"auto-fill-indicator\" id=\"" ++
    (fieldId) ++
    "_indicator\"></span>\n            </label>\n            <input \n                type=\"text\" \n                id=\"" ++
    (fieldId) ++
    "\" \n                name=\"" ++
    (field.id) ++
    "\"\n                class=\"form-control\" \n                placeholder=\"" ++
    (escapeHtml (jsOr field.placeholder "Ex: 12.345.678/0001-90")) ++
    "\"\n                " ++
    (requiredAttr) ++
    "\n                data-validation=\"cnpj\"\n                maxlength=\"18\"\n            >\n            <div class=\"field-error\" id=\"" ++
    (fieldId) ++
    "_error\"></div>\n        </div>"
  else if field.type = "textarea" then
    "<div class=\"form-group\" data-field-type=\"textarea\">\n            <label for=\"" ++
    (fieldId) ++
    "\" class=\"form-label\">\n                " ++
    (escapeHtml field.label) ++
    (requiredLabel) ++
    "\n            </label>\n            <textarea \n                id=\"" ++
    (fieldId) ++
    "\" \n                name=\"" ++
    (field.id) ++
    "\"\n                class=\"form-control\" \n                placeholder=\"" ++
    (escapeHtml (jsOr field.placeholder "")) ++
    "\"\n                " ++
    (requiredAttr) ++
    "\n                rows=\"4\"\n            ></textarea>\n            <div class=\"field-error\" id=\"" ++
    (fieldId) ++
    "_error\"></div>\n        </div>"
  else if field.type = "select" then
    let selectOptions := match field.options with
      | none => ""
      | some opts => String.join (opts.map (fun option =>
          "<option value=\"" ++
          (escapeHtml option) ++
          "\">" ++
          (escapeHtml option) ++
          "</option>"))
    "<div class=\"form-group\" data-field-type=\"select\">\n            <label for=\"" ++
    (fieldId) ++
    "\" class=\"form-label\">\n                " ++
    (escapeHtml field.label) ++
    (requiredLabel) ++
    "\n            </label>\n            <select \n                id=\"" ++
    (fieldId) ++
    "\" \n                name=\"" ++
    (field.id) ++
    "\"\n                class=\"form-control\" \n                " ++
    (requiredAttr) ++
    "\n            >\n                <option value=\"\">Select an option</option>\n                " ++
    (selectOptions) ++
    "\n            </select>\n            <div class=\"field-error\" id=\"" ++
    (fieldId) ++
    "_error\"></div>\n        </div>"
  else if field.type = "radio" then
    let radioOptions := match field.options with
      | none => ""
      | some opts => String.join (opts.enum.map (fun p =>
          "<div class=\"radio-option\">\n                <input \n                    type=\"radio\" \n                    id=\"" ++
          (fieldId) ++
          "_" ++
          (toString p.1) ++
          "\" \n                    name=\"" ++
          (field.id) ++
          "\"\n                    value=\"" ++
          (escapeHtml p.2) ++
          "\"\n                    " ++
          (requiredAttr) ++
          "\n                >\n                <label for=\"" ++
          (fieldId) ++
          "_" ++
          (toString p.1) ++
          "\">" ++
          (escapeHtml p.2) ++
          "</label>\n            </div>"))
    "<div class=\"form-group\" data-field-type=\"radio\">\n            <fieldset>\n                <legend class=\"form-label\">\n                    " ++
    (escapeHtml field.label) ++
    (requiredLabel) ++
    "\n                </legend>\n                <div class=\"radio-group\">\n                    " ++
    (radioOptions) ++
    "\n                </div>\n            </fieldset>\n            <div class=\"field-error\" id=\"" ++
    (fieldId) ++
    "_error\"></div>\n        </div>"
  else if field.type = "checkbox" then
    "<div class=\"form-group\" data-field-type=\"checkbox\">\n            <div class=\"checkbox-wrapper\">\n                <input \n                    type=\"checkbox\" \n                    id=\"" ++
    (fieldId) ++
    "\" \n                    name=\"" ++
    (field.id) ++
    "\"\n                    value=\"true\"\n                    " ++
    (requiredAttr) ++
    "\n                >\n                <label for=\"" ++
    (fieldId) ++
    "\" class=\"checkbox-label\">\n                    " ++
    (escapeHtml field.label) ++
    (requiredLabel) ++
    "\n                </label>\n            </div>\n            <div class=\"field-error\" id=\"" ++
    (fieldId) ++
    "_error\"></div>\n        </div>"
  else if field.type = "date" then
    "<div class=\"form-group\" data-field-type=\"date\">\n            <label for=\"" ++
    (fieldId) ++
    "\" class=\"form-label\">\n                " ++
    (escapeHtml field.label) ++
    (requiredLabel) ++
    "\n            </label>\n            <input \n                type=\"date\" \n                id=\"" ++
    (fieldId) ++
    "\" \n                name=\"" ++
    (field.id) ++
    "\"\n                class=\"form-control\" \n                " ++
    (requiredAttr) ++
    "\n            >\n            <div class=\"field-error\" id=\"" ++
    (fieldId) ++
    "_error\"></div>\n        </div>"
  else
    "<!-- Unsupported field type: " ++
    (field.type) ++
    " -->"

/-- `generateFieldHTML` with the escaping function abstracted, to state
where user content is escaped.  The body is the same template with `esc`
at every `escapeHtml` call site. -/
def generateFieldHTMLEsc (esc : String → String) : FormField → String := fun field =>
  let fieldId := "field_" ++ field.id
  let requiredAttr := if field.required then "required" else ""
  let requiredLabel := if field.required then
    "<span class=\"required\">*</span>" else ""
  if field.type = "text" ∨ field.type = "email" ∨ field.type = "phone" then
    "<div class=\"form-group\" data-field-type=\"" ++
    (field.type) ++
    "\">\n            <label for=\"" ++
    (fieldId) ++
    "\" class=\"form-label\">\n                " ++
    (esc field.label) ++
    (requiredLabel) ++
    "\n            </label>\n            <input \n                type=\"" ++
    (if field.type = "phone" then "tel" else field.type) ++
    "\" \n                id=\"" ++
    (fieldId) ++
    "\" \n                name=\"" ++
    (field.id) ++
    "\"\n                class=\"form-control\" \n                placeholder=\"" ++
    (esc (jsOr field.placeholder "")) ++
    "\"\n                " ++
    (requiredAttr) ++
    "\n                data-validation=\"" ++
    (field.type) ++
    "\"\n            >\n            <div class=\"field-error\" id=\"" ++
    (fieldId) ++
    "_error\"></div>\n        </div>"
  else if field.type = "cep" then
    "<div class=\"form-group\" data-field-type=\"cep\">\n            <label for=\"" ++
    (fieldId) ++
    "\" class=\"form-label\">\n                " ++
    (esc field.label) ++
    (requiredLabel) ++
    "\n                <span class=\"auto-fill-indicator\" id=\"" ++
    (fieldId) ++
    "_indicator\"></span>\n            </label>\n            <input \n                type=\"text\" \n                id=\"" ++
    (fieldId) ++
    "\" \n                name=\"" ++
    (field.id) ++
    "\"\n                class=\"form-control\" \n                placeholder=\"" ++
    (esc (jsOr field.placeholder "Ex: 12345-678")) ++
    "\"\n                " ++
    (requiredAttr) ++
    "\n                data-validation=\"cep\"\n                maxlength=\"9\"\n            >\n            <div class=\"field-error\" id=\"" ++
    (fieldId) ++
    "_error\"></div>\n        </div>"
  else if field.type = "cnpj" then
    "<div class=\"form-group\" data-field-type=\"cnpj\">\n            <label for=\"" ++
    (fieldId) ++
    "\" class=\"form-label\">\n                " ++
    (esc field.label) ++
    (requiredLabel) ++
    "\n                <span class=\"auto-fill-indicator\" id=\"" ++
    (fieldId) ++
    "_indicator\"></span>\n            </label>\n            <input \n                type=\"text\" \n                id=\"" ++
    (fieldId) ++
    "\" \n                name=\"" ++
    (field.id) ++
    "\"\n                class=\"form-control\" \n                placeholder=\"" ++
    (esc (jsOr field.placeholder "Ex: 12.345.678/0001-90")) ++
    "\"\n                " ++
    (requiredAttr) ++
    "\n                data-validation=\"cnpj\"\n                maxlength=\"18\"\n            >\n            <div class=\"field-error\" id=\"" ++
    (fieldId) ++
    "_error\"></div>\n        </div>"
  else if field.type = "textarea" then
    "<div class=\"form-group\" data-field-type=\"textarea\">\n            <label for=\"" ++
    (fieldId) ++
    "\" class=\"form-label\">\n                " ++
    (esc field.label) ++
    (requiredLabel) ++
    "\n            </label>\n            <textarea \n                id=\"" ++
    (fieldId) ++
    "\" \n                name=\"" ++
    (field.id) ++
    "\"\n                class=\"form-control\" \n                placeholder=\"" ++
    (esc (jsOr field.placeholder "")) ++
    "\"\n                " ++
    (requiredAttr) ++
    "\n                rows=\"4\"\n            ></textarea>\n            <div class=\"field-error\" id=\"" ++
    (fieldId) ++
    "_error\"></div>\n        </div>"
  else if field.type = "select" then
    let selectOptions := match field.options with
      | none => ""
      | some opts => String.join (opts.map (fun option =>
          "<option value=\"" ++
          (esc option) ++
          "\">" ++
          (esc option) ++
          "</option>"))
    "<div class=\"form-group\" data-field-type=\"select\">\n            <label for=\"" ++
    (fieldId) ++
    "\" class=\"form-label\">\n                " ++
    (esc field.label) ++
    (requiredLabel) ++
    "\n            </label>\n            <select \n                id=\"" ++
    (fieldId) ++
    "\" \n                name=\"" ++
    (field.id) ++
    "\"\n                class=\"form-control\" \n                " ++
    (requiredAttr) ++
    "\n            >\n                <option value=\"\">Select an option</option>\n                " ++
    (selectOptions) ++
    "\n            </select>\n            <div class=\"field-error\" id=\"" ++
    (fieldId) ++
    "_error\"></div>\n        </div>"
  else if field.type = "radio" then
    let radioOptions := match field.options with
      | none => ""
      | some opts => String.join (opts.enum.map (fun p =>
          "<div class=\"radio-option\">\n                <input \n                    type=\"radio\" \n                    id=\"" ++
          (fieldId) ++
          "_" ++
          (toString p.1) ++
          "\" \n                    name=\"" ++
          (field.id) ++
          "\"\n                    value=\"" ++
          (esc p.2) ++
          "\"\n                    " ++
          (requiredAttr) ++
          "\n                >\n                <label for=\"" ++
          (fieldId) ++
          "_" ++
          (toString p.1) ++
          "\">" ++
          (esc p.2) ++
          "</label>\n            </div>"))
    "<div class=\"form-group\" data-field-type=\"radio\">\n            <fieldset>\n                <legend class=\"form-label\">\n                    " ++
    (esc field.label) ++
    (requiredLabel) ++
    "\n                </legend>\n                <div class=\"radio-group\">\n                    " ++
    (radioOptions) ++
    "\n                </div>\n            </fieldset>\n            <div class=\"field-error\" id=\"" ++
    (fieldId) ++
    "_error\"></div>\n        </div>"
  else if field.type = "checkbox" then
    "<div class=\"form-group\" data-field-type=\"checkbox\">\n            <div class=\"checkbox-wrapper\">\n                <input \n                    type=\"checkbox\" \n                    id=\"" ++
    (fieldId) ++
    "\" \n                    name=\"" ++
    (field.id) ++
    "\"\n                    value=\"true\"\n                    " ++
    (requiredAttr) ++
    "\n                >\n                <label for=\"" ++
    (fieldId) ++
    "\" class=\"checkbox-label\">\n                    " ++
    (esc field.label) ++
    (requiredLabel) ++
    "\n                </label>\n            </div>\n            <div class=\"field-error\" id=\"" ++
    (fieldId) ++
    "_error\"></div>\n        </div>"
  else if field.type = "date" then
    "<div class=\"form-group\" data-field-type=\"date\">\n            <label for=\"" ++
    (fieldId) ++
    "\" class=\"form-label\">\n                " ++
    (esc field.label) ++
    (requiredLabel) ++
    "\n            </label>\n            <input \n                type=\"date\" \n                id=\"" ++
    (fieldId) ++
    "\" \n                name=\"" ++
    (field.id) ++
    "\"\n                class=\"form-control\" \n                " ++
    (requiredAttr) ++
    "\n            >\n            <div class=\"field-error\" id=\"" ++
    (fieldId) ++
    "_error\"></div>\n        </div>"
  else
    "<!-- Unsupported field type: " ++
    (field.type) ++
    " -->"

/-- `generateFormHTML` (fields joined by newlines inside the form shell). -/
def generateFormHTML (form : Form) : String :=
  let fieldsHTML := String.intercalate "\n" (form.fields.map generateFieldHTML)
  "<form id=\"exported-form\" class=\"form\" novalidate>\n        " ++
  (fieldsHTML) ++
  "\n        <div class=\"form-group submit-group\">\n            <button type=\"submit\" class=\"btn btn-primary\" id=\"submit-btn\">\n                <span class=\"btn-text\">Submit Form</span>\n                <span class=\"btn-loading\" style=\"display: none;\">\n                    <span class=\"spinner\"></span>\n                    Submitting...\n                </span>\n            </button>\n        </div>\n        <div id=\"form-messages\" class=\"form-messages\"></div>\n    </form>"

/-- `generateFormHTML` with the escaping function abstracted. -/
def generateFormHTMLEsc (esc : String → String) (form : Form) : String :=
  let fieldsHTML := String.intercalate "\n" (form.fields.map (generateFieldHTMLEsc esc))
  "<form id=\"exported-form\" class=\"form\" novalidate>\n        " ++
  (fieldsHTML) ++
  "\n        <div class=\"form-group submit-group\">\n            <button type=\"submit\" class=\"btn btn-primary\" id=\"submit-btn\">\n                <span class=\"btn-text\">Submit Form</span>\n                <span class=\"btn-loading\" style=\"display: none;\">\n                    <span class=\"spinner\"></span>\n                    Submitting...\n                </span>\n            </button>\n        </div>\n        <div id=\"form-messages\" class=\"form-messages\"></div>\n    </form>"

/-- `generateHTMLTemplate`: the complete exported HTML document. -/
def generateHTMLTemplate (form : Form) (options : HTMLExportOptions) : String :=
  let css := if options.includeCSS then generateCSS options.theme else ""
  let javascript := generateJavaScript form options
  let formHTML := generateFormHTML form
  "<!DOCTYPE html>\n<html lang=\"en\">\n<head>\n    <meta charset=\"UTF-8\">\n    <meta name=\"viewport\" content=\"width=device-width, initial-scale=1.0\">\n    <title>" ++
  (escapeHtml form.title) ++
  "</title>\n    " ++
  (if options.includeBootstrap then getBootstrapCSS else "") ++
  "\n    " ++
  (if css = "" then "" else "<style>" ++ css ++ "</style>") ++
  "\n</head>\n<body>\n    <div class=\"container\">\n        <div class=\"form-container\">\n            <div class=\"form-header\">\n                <h1>" ++
  (escapeHtml form.title) ++
  "</h1>\n                " ++
  (if form.description = "" then "" else
      "<p class=\"form-description\">" ++ escapeHtml form.description ++ "</p>") ++
  "\n            </div>\n            " ++
  (formHTML) ++
  "\n        </div>\n    </div>\n    " ++
  (javascript) ++
  "\n</body>\n</html>"

/-- `generateHTMLTemplate` with the escaping function abstracted. -/
def generateHTMLTemplateEsc (esc : String → String) (form : Form) (options : HTMLExportOptions) : String :=
  let css := if options.includeCSS then generateCSS options.theme else ""
  let javascript := generateJavaScript form options
  let formHTML := (generateFormHTMLEsc esc) form
  "<!DOCTYPE html>\n<html lang=\"en\">\n<head>\n    <meta charset=\"UTF-8\">\n    <meta name=\"viewport\" content=\"width=device-width, initial-scale=1.0\">\n    <title>" ++
  (esc form.title) ++
  "</title>\n    " ++
  (if options.includeBootstrap then getBootstrapCSS else "") ++
  "\n    " ++
  (if css = "" then "" else "<style>" ++ css ++ "</style>") ++
  "\n</head>\n<body>\n    <div class=\"container\">\n        <div class=\"form-container\">\n            <div class=\"form-header\">\n                <h1>" ++
  (esc form.title) ++
  "</h1>\n                " ++
  (if form.description = "" then "" else
      "<p class=\"form-description\">" ++ esc form.description ++ "</p>") ++
  "\n            </div>\n            " ++
  (formHTML) ++
  "\n        </div>\n    </div>\n    " ++
  (javascript) ++
  "\n</body>\n</html>"

/-- `FormExporter.exportAsHTML` (the option destructuring with defaults is
the identity on the options record). -/
def exportAsHTML (form : Form) (options : HTMLExportOptions) : String :=
  generateHTMLTemplate form options

/-- A JSON-serialisable value.  JavaScript object properties may be
`undefined`, which `JSON.stringify` omits: object fields carry
`Option JVal`. -/
inductive JVal where
  | s (v : String)
  | n (v : Nat)
  | b (v : Bool)
  | arr (vs : List JVal)
  | obj (fs : List (String × Option JVal))

/-- Lower-case hexadecimal digit. -/
def hexDigit (n : Nat) : Char :=
  if n < 10 then Char.ofNat (48 + n) else Char.ofNat (87 + n)

/-- `JSON.stringify` escaping of one string character. -/
def jsonEscapeChar (c : Char) : String :=
  if c = '"' then "\\\""
  else if c = '\\' then "\\\\"
  else if c = Char.ofNat 8 then "\\b"
  else if c = Char.ofNat 9 then "\\t"
  else if c = Char.ofNat 10 then "\\n"
  else if c = Char.ofNat 12 then "\\f"
  else if c = Char.ofNat 13 then "\\r"
  else if c.toNat < 32 then
    "\\u00" ++ String.mk [hexDigit (c.toNat / 16), hexDigit (c.toNat % 16)]
  else String.mk [c]

/-- `JSON.stringify` quoting of a string. -/
def jsonQuote (s : String) : String :=
  "\"" ++ String.join (s.data.map jsonEscapeChar) ++ "\""

mutual

/-- Compact `JSON.stringify(v)`. -/
def stringifyC : JVal → String
  | .s v => jsonQuote v
  | .n v => toString v
  | .b v => cond v "true" "false"
  | .arr vs => "[" ++ String.intercalate "," (arrItemsC vs) ++ "]"
  | .obj fs => "\x7b" ++ String.intercalate "," (objItemsC fs) ++ "\x7d"

/-- Serialised array elements, compact. -/
def arrItemsC : List JVal → List String
  | [] => []
  | v :: rest => stringifyC v :: arrItemsC rest

/-- Serialised object members, compact; `undefined` values are omitted. -/
def objItemsC : List (String × Option JVal) → List String
  | [] => []
  | (_, none) :: rest => objItemsC rest
  | (k, some v) :: rest => (jsonQuote k ++ ":" ++ stringifyC v) :: objItemsC rest

end

mutual

/-- Pretty `JSON.stringify(v, null, 2)`, with `ind` the indentation of the
enclosing value (the ECMAScript serialisation algorithm with `gap = "  "`). -/
def stringifyP (ind : String) : JVal → String
  | .s v => jsonQuote v
  | .n v => toString v
  | .b v => cond v "true" "false"
  | .arr vs =>
    match arrItemsP (ind ++ "  ") vs with
    | [] => "[]"
    | items =>
      "[" ++ "\n" ++ ind ++ "  " ++
        String.intercalate (",\n" ++ ind ++ "  ") items ++
        "\n" ++ ind ++ "]"
  | .obj fs =>
    match objItemsP (ind ++ "  ") fs with
    | [] => "\x7b\x7d"
    | items =>
      "\x7b" ++ "\n" ++ ind ++ "  " ++
        String.intercalate (",\n" ++ ind ++ "  ") items ++
        "\n" ++ ind ++ "\x7d"

/-- Serialised array elements, pretty. -/
def arrItemsP (ind : String) : List JVal → List String
  | [] => []
  | v :: rest => stringifyP ind v :: arrItemsP ind rest

/-- Serialised object members, pretty; `undefined` values are omitted. -/
def objItemsP (ind : String) : List (String × Option JVal) → List String
  | [] => []
  | (_, none) :: rest => objItemsP ind rest
  | (k, some v) :: rest =>
    (jsonQuote k ++ ": " ++ stringifyP ind v) :: objItemsP ind rest

end

/-- `getFieldValidation`: the per-type validation rules object. -/
def getFieldValidation (field : FormField) : JVal :=
  .obj ([("required", some (.b field.required))] ++
    (if field.type = "email" then
      [("pattern", some (.s "^[^\\s@]+@[^\\s@]+\\.[^\\s@]+$")),
       ("message", some (.s "Please enter a valid email address"))]
    else if field.type = "phone" then
      [("pattern",
        some (.s "^(\\+55\\s?)?($$?\\d\x7b2\x7d$$?\\s?)?\\d\x7b4,5\x7d-?\\d\x7b4\x7d$")),
       ("message", some (.s "Please enter a valid phone number"))]
    else if field.type = "cep" then
      [("pattern", some (.s "^\\d\x7b5\x7d-?\\d\x7b3\x7d$")),
       ("message", some (.s "Please enter a valid CEP")),
       ("autoFill", some (.b true))]
    else if field.type = "cnpj" then
      [("pattern",
        some (.s "^\\d\x7b2\x7d\\.?\\d\x7b3\x7d\\.?\\d\x7b3\x7d\\/?\\d\x7b4\x7d-?\\d\x7b2\x7d$")),
       ("message", some (.s "Please enter a valid CNPJ")),
       ("autoFill", some (.b true))]
    else []))

/-- The serialised shape of one field in `exportAsJSON`. -/
def fieldToJVal (includeValidation : Bool) (field : FormField) : JVal :=
  .obj [("id", some (.s field.id)),
        ("type", some (.s field.type)),
        ("label", some (.s field.label)),
        ("placeholder", some (.s (jsOr field.placeholder ""))),
        ("required", some (.b field.required)),
        ("options", some (.arr ((field.options.getD []).map JVal.s))),
        ("validation",
          if includeValidation then some (getFieldValidation field) else none)]

/-- `FormExporter.exportAsJSON`, with `new Date().toISOString()` passed in
as the `nowISO` parameter. -/
def exportAsJSON (form : Form) (options : JSONExportOptions)
    (nowISO : String) : String :=
  let exportData : JVal := .obj
    ([("version", some (.s options.version)),
      ("exportedAt", some (.s nowISO)),
      ("form", some (.obj
        [("id", some (.s form.id)),
         ("title", some (.s form.title)),
         ("description", some (.s form.description)),
         ("fields", some (.arr
           (form.fields.map (fieldToJVal options.includeValidation))))]))] ++
     (if options.includeMetadata then
       [("metadata", some (.obj
         [("status", some (.s form.status)),
          ("createdAt", some (.s form.created_at)),
          ("updatedAt", some (.s form.updated_at)),
          ("fieldCount", some (.n form.fields.length)),
          ("requiredFields",
           some (.n (form.fields.filter (fun f => f.required)).length))]))]
      else []))
  if options.minify then stringifyC exportData else stringifyP "" exportData

/-- An invocation of `exportAsHTML` at clock reading `t`: the HTML export
path performs no clock read (`new Date()` appears only in `exportAsJSON`),
so the output ignores `t`. -/
def exportAsHTMLAt (_t : String) (form : Form)
    (options : HTMLExportOptions) : String :=
  exportAsHTML form options

/-- A field with its user-controlled content (label, placeholder, option
values) HTML-escaped. -/
def escapeField (field : FormField) : FormField :=
  { field with
    label := escapeHtml field.label,
    placeholder := field.placeholder.map escapeHtml,
    options := field.options.map (fun opts => opts.map escapeHtml) }

/-- A form with its user-controlled content (title, description, and every
field's content) HTML-escaped. -/
def escapeForm (form : Form) : Form :=
  { form with
    title := escapeHtml form.title,
    description := escapeHtml form.description,
    fields := form.fields.map escapeField }

end FormExporter

/-! ## Theorems -/

section JsMapLemmas

variable {α : Type}

theorem beq_false_of_ne {a b : String} (h : a ≠ b) : (a == b) = false :=
  beq_eq_false_iff_ne.mpr h

theorem lookup_mapSet_self (st : List (String × α)) (k : String) (v : α) :
    (mapSet st k v).lookup k = some v := by
  induction st with
  | nil => simp [mapSet, List.lookup]
  | cons p rest ih =>
    obtain ⟨k', v'⟩ := p
    by_cases h : k' = k
    · subst h
      simp [mapSet, List.lookup]
    · simp [mapSet, List.lookup, h, beq_false_of_ne (Ne.symm h), ih]

theorem lookup_mapSet_ne (st : List (String × α)) (k k' : String) (v : α)
    (h : k' ≠ k) : (mapSet st k v).lookup k' = st.lookup k' := by
  induction st with
  | nil => simp [mapSet, List.lookup, beq_false_of_ne h]
  | cons p rest ih =>
    obtain ⟨k₀, v₀⟩ := p
    by_cases hp : k₀ = k
    · subst hp
      simp [mapSet, List.lookup, beq_false_of_ne h]
    · by_cases hk : k' = k₀
      · subst hk
        simp [mapSet, List.lookup, hp]
      · simp [mapSet, List.lookup, hp, beq_false_of_ne hk, ih]

theorem lookup_mapDel_self (st : List (String × α)) (k : String) :
    (mapDel st k).lookup k = none := by
  induction st with
  | nil => simp [mapDel]
  | cons p rest ih =>
    obtain ⟨k₀, v₀⟩ := p
    by_cases h : k₀ = k
    · simpa [mapDel, h] using ih
    · simp only [mapDel, List.filter_cons] at ih ⊢
      simpa [List.lookup, h, beq_false_of_ne (Ne.symm h)] using ih

theorem lookup_mapDel_ne (st : List (String × α)) (k k' : String)
    (h : k' ≠ k) : (mapDel st k).lookup k' = st.lookup k' := by
  induction st with
  | nil => simp [mapDel]
  | cons p rest ih =>
    obtain ⟨k₀, v₀⟩ := p
    by_cases hp : k₀ = k
    · subst hp
      simp only [mapDel, List.filter_cons] at ih ⊢
      simpa [List.lookup, beq_false_of_ne h] using ih
    · by_cases hk : k' = k₀
      · subst hk
        simp [mapDel, List.filter_cons, List.lookup, hp]
      · simp only [mapDel, List.filter_cons] at ih ⊢
        simpa [List.lookup, hp, beq_false_of_ne hk] using ih

end JsMapLemmas

section BitHelpers

theorem natOr_eq_zero (a b : Nat) : a ||| b = 0 ↔ a = 0 ∧ b = 0 := by
  constructor
  · intro h
    constructor
    · apply Nat.zero_of_testBit_eq_false
      intro i
      have := congrArg (fun n => Nat.testBit n i) h
      simp only [Nat.testBit_lor] at this
      simpa using (Bool.or_eq_false_iff.mp (by simpa using this)).1
    · apply Nat.zero_of_testBit_eq_false
      intro i
      have := congrArg (fun n => Nat.testBit n i) h
      simp only [Nat.testBit_lor] at this
      simpa using (Bool.or_eq_false_iff.mp (by simpa using this)).2
  · rintro ⟨rfl, rfl⟩
    rfl

theorem char_toNat_inj_iff {a b : Char} : a.toNat = b.toNat ↔ a = b :=
  ⟨fun h => Char.eq_of_val_eq (UInt32.eq_of_val_eq (Fin.ext h)),
    fun h => h ▸ rfl⟩

theorem foldl_or_xor_eq_zero (l : List (Char × Char)) (acc : Nat) :
    (l.foldl (fun r p => r ||| (p.1.toNat ^^^ p.2.toNat)) acc = 0) ↔
    (acc = 0 ∧ ∀ p ∈ l, p.1 = p.2) := by
  induction l generalizing acc with
  | nil => simp
  | cons p rest ih =>
    simp only [List.foldl_cons, ih, natOr_eq_zero, Nat.xor_eq_zero,
      char_toNat_inj_iff, List.forall_mem_cons]
    tauto

theorem list_eq_of_zip_eq (as : List Char) : ∀ bs : List Char,
    as.length = bs.length → (∀ p ∈ as.zip bs, p.1 = p.2) → as = bs := by
  induction as with
  | nil =>
    intro bs hlen _
    cases bs with
    | nil => rfl
    | cons b bs => simp at hlen
  | cons a as ih =>
    intro bs hlen h
    cases bs with
    | nil => simp at hlen
    | cons b bs =>
      simp only [List.zip_cons_cons, List.mem_cons] at h
      have hab : a = b := h (a, b) (Or.inl rfl)
      have : as = bs := by
        apply ih
        · simpa using hlen
        · intro p hp
          exact h p (Or.inr hp)
      rw [hab, this]

theorem zip_self_eq (as : List Char) : ∀ p ∈ as.zip as, p.1 = p.2 := by
  induction as with
  | nil => simp
  | cons a as ih =>
    intro p hp
    simp only [List.zip_cons_cons, List.mem_cons] at hp
    rcases hp with rfl | hp
    · rfl
    · exact ih p hp

end BitHelpers

/-! ### C1: the rate limiter is a fixed-window counter -/

/-- **C1.** Rate limiting is a fixed-window counter keyed by IP and endpoint:
a request with no stored entry for the key, or arriving at or after the stored
reset time, is allowed and starts a fresh window (`window` long, counter 1);
a request inside the window increments the counter, and is rejected exactly
when the counter exceeds the endpoint's configured request limit.  Stated for
both implementations: `checkRateLimit` (middleware, limit 3 or 10, window
60000 ms) and `RateLimiter.checkLimit` (per-endpoint configuration). -/
theorem rateLimit_fixed_window (ip endpoint : String) (now : Nat)
    (st : List (String × MwRateEntry))
    (lim : List (String × RateLimiter.RateLimitEntry)) :
    ((st.lookup (rlKey ip endpoint) = none ∨
        (∃ e, st.lookup (rlKey ip endpoint) = some e ∧ e.resetTime ≤ now)) →
      (checkRateLimit ip endpoint now st).1.allowed = true ∧
        (checkRateLimit ip endpoint now st).2.lookup (rlKey ip endpoint) =
          some ⟨1, now + rateLimitWindow⟩) ∧
    (∀ e, st.lookup (rlKey ip endpoint) = some e → now < e.resetTime →
      (checkRateLimit ip endpoint now st).2.lookup (rlKey ip endpoint) =
          some ⟨e.count + 1, e.resetTime⟩ ∧
        ((checkRateLimit ip endpoint now st).1.allowed = false ↔
          endpointLimit endpoint < e.count + 1)) ∧
    ((lim.lookup (rlKey ip endpoint) = none ∨
        (∃ e, lim.lookup (rlKey ip endpoint) = some e ∧ e.resetTime ≤ now)) →
      (RateLimiter.checkLimit ip endpoint now lim).1.allowed = true ∧
        (RateLimiter.checkLimit ip endpoint now lim).2.lookup
            (rlKey ip endpoint) =
          some ⟨1, now + (RateLimiter.configs endpoint).window, false⟩) ∧
    (∀ e, lim.lookup (rlKey ip endpoint) = some e → now < e.resetTime →
      ((RateLimiter.checkLimit ip endpoint now lim).2.lookup
            (rlKey ip endpoint)).map RateLimiter.RateLimitEntry.count =
          some (e.count + 1) ∧
        ((RateLimiter.checkLimit ip endpoint now lim).1.allowed = false ↔
          (RateLimiter.configs endpoint).requests < e.count + 1)) := by
  refine ⟨?_, ?_, ?_, ?_⟩
  · rintro (h | ⟨e, he, hle⟩)
    · simp [checkRateLimit, h, lookup_mapSet_self]
    · simp [checkRateLimit, he, hle, lookup_mapSet_self]
  · intro e he hlt
    have hnle : ¬e.resetTime ≤ now := not_le.mpr hlt
    by_cases hgt : endpointLimit endpoint < e.count + 1
    · simp [checkRateLimit, he, hnle, hgt, lookup_mapSet_self]
    · simp [checkRateLimit, he, hnle, hgt, lookup_mapSet_self]
  · rintro (h | ⟨e, he, hle⟩)
    · simp [RateLimiter.checkLimit, h, lookup_mapSet_self]
    · simp [RateLimiter.checkLimit, he, hle, lookup_mapSet_self]
  · intro e he hlt
    have hnle : ¬e.resetTime ≤ now := not_le.mpr hlt
    by_cases hgt : (RateLimiter.configs endpoint).requests < e.count + 1
    · simp [RateLimiter.checkLimit, he, hnle, hgt, lookup_mapSet_self]
    · simp [RateLimiter.checkLimit, he, hnle, hgt, lookup_mapSet_self]

/-- Witness for `rateLimit_fixed_window`: all four parts evaluated at
concrete inputs (fresh window on an empty map; in-window increment on a map
holding a counter at the limit). -/
theorem rateLimit_fixed_window_witness :
    ((checkRateLimit "1.2.3.4" "/api/forms" 5 []).1.allowed = true ∧
      (checkRateLimit "1.2.3.4" "/api/forms" 5 []).2.lookup
          (rlKey "1.2.3.4" "/api/forms") = some ⟨1, 5 + rateLimitWindow⟩) ∧
    ((checkRateLimit "1.2.3.4" "/api/forms" 5
          [(rlKey "1.2.3.4" "/api/forms", ⟨10, 60000⟩)]).2.lookup
          (rlKey "1.2.3.4" "/api/forms") = some ⟨11, 60000⟩ ∧
      ((checkRateLimit "1.2.3.4" "/api/forms" 5
          [(rlKey "1.2.3.4" "/api/forms", ⟨10, 60000⟩)]).1.allowed = false ↔
        endpointLimit "/api/forms" < 11)) ∧
    ((RateLimiter.checkLimit "1.2.3.4" "/api/forms" 5 []).1.allowed = true ∧
      (RateLimiter.checkLimit "1.2.3.4" "/api/forms" 5 []).2.lookup
          (rlKey "1.2.3.4" "/api/forms") =
        some ⟨1, 5 + (RateLimiter.configs "/api/forms").window, false⟩) ∧
    (((RateLimiter.checkLimit "1.2.3.4" "/api/forms" 5
          [(rlKey "1.2.3.4" "/api/forms", ⟨10, 60000, false⟩)]).2.lookup
          (rlKey "1.2.3.4" "/api/forms")).map
          RateLimiter.RateLimitEntry.count = some 11 ∧
      ((RateLimiter.checkLimit "1.2.3.4" "/api/forms" 5
          [(rlKey "1.2.3.4" "/api/forms", ⟨10, 60000, false⟩)]).1.allowed =
          false ↔
        (RateLimiter.configs "/api/forms").requests < 11)) := by
  refine ⟨?_, ?_, ?_, ?_⟩
  · exact (rateLimit_fixed_window "1.2.3.4" "/api/forms" 5 [] []).1
      (Or.inl (by decide))
  · exact (rateLimit_fixed_window "1.2.3.4" "/api/forms" 5
      [(rlKey "1.2.3.4" "/api/forms", ⟨10, 60000⟩)] []).2.1
      ⟨10, 60000⟩ (by decide) (by decide)
  · exact (rateLimit_fixed_window "1.2.3.4" "/api/forms" 5 [] []).2.2.1
      (Or.inl (by decide))
  · exact (rateLimit_fixed_window "1.2.3.4" "/api/forms" 5 []
      [(rlKey "1.2.3.4" "/api/forms", ⟨10, 60000, false⟩)]).2.2.2
      ⟨10, 60000, false⟩ (by decide) (by decide)

/-! ### C4: frame property of the rate limiter -/

/-- **C4 counterexample.** The rate-limit map is keyed by the concatenated
string `ip + ":" + endpoint`, and distinct IP-endpoint *pairs* can collide on
the same key: the pair `("a", "b:c")` and the pair `("a:b", "c")` share the
key `"a:b:c"`.  A call for the second pair therefore modifies the stored
entry of the first pair, refuting the claim that a call leaves the entry of
every other IP-endpoint pair unchanged. -/
theorem checkRateLimit_frame_counterexample :
    ("a", "b:c") ≠ (("a:b", "c") : String × String) ∧
    (checkRateLimit "a:b" "c" 0 (checkRateLimit "a" "b:c" 0 []).2).2.lookup
        (rlKey "a" "b:c") ≠
      (checkRateLimit "a" "b:c" 0 []).2.lookup (rlKey "a" "b:c") := by
  constructor
  · decide
  · decide

/-- **C4 (amended).** A call to `checkRateLimit` for `(ip, endpoint)`
modifies at most the map entry stored under the key string
`ip + ":" + endpoint`; the entry of every pair whose key string differs
(in particular every distinct pair of colon-free strings) is left unchanged.
The allow/reject result depends only on the entry stored under that key,
the endpoint's configuration, and the current time. -/
theorem checkRateLimit_frame (ip endpoint ip' endpoint' : String) (now : Nat)
    (st : List (String × MwRateEntry))
    (h : rlKey ip' endpoint' ≠ rlKey ip endpoint) :
    (checkRateLimit ip endpoint now st).2.lookup (rlKey ip' endpoint') =
      st.lookup (rlKey ip' endpoint') ∧
    (∀ st₂ : List (String × MwRateEntry),
      st₂.lookup (rlKey ip endpoint) = st.lookup (rlKey ip endpoint) →
      (checkRateLimit ip endpoint now st₂).1 =
        (checkRateLimit ip endpoint now st).1) := by
  constructor
  · cases hl : st.lookup (rlKey ip endpoint) with
    | none => simp [checkRateLimit, hl, lookup_mapSet_ne _ _ _ _ h]
    | some e =>
      by_cases hle : e.resetTime ≤ now
      · simp [checkRateLimit, hl, hle, lookup_mapSet_ne _ _ _ _ h]
      · by_cases hgt : e.count + 1 > endpointLimit endpoint
        · simp [checkRateLimit, hl, hle, hgt, lookup_mapSet_ne _ _ _ _ h]
        · simp [checkRateLimit, hl, hle, hgt, lookup_mapSet_ne _ _ _ _ h]
  · intro st₂ h₂
    cases hl : st.lookup (rlKey ip endpoint) with
    | none => simp [checkRateLimit, hl, h₂.trans hl]
    | some e =>
      simp only [checkRateLimit, hl, h₂.trans hl]
      split_ifs <;> rfl

/-- Witness for `checkRateLimit_frame`: a call for `("5.6.7.8", "/api/x")`
leaves the entry of `("1.2.3.4", "/api/forms")` unchanged, and its result is
the same over two maps agreeing on its own key. -/
theorem checkRateLimit_frame_witness :
    (checkRateLimit "5.6.7.8" "/api/x" 0
        [(rlKey "1.2.3.4" "/api/forms", ⟨3, 60000⟩)]).2.lookup
        (rlKey "1.2.3.4" "/api/forms") =
      List.lookup (rlKey "1.2.3.4" "/api/forms")
        [(rlKey "1.2.3.4" "/api/forms", ⟨3, 60000⟩)] ∧
    (checkRateLimit "5.6.7.8" "/api/x" 0 []).1 =
      (checkRateLimit "5.6.7.8" "/api/x" 0
        [(rlKey "1.2.3.4" "/api/forms", ⟨3, 60000⟩)]).1 := by
  have h := checkRateLimit_frame "5.6.7.8" "/api/x" "1.2.3.4" "/api/forms" 0
    [(rlKey "1.2.3.4" "/api/forms", ⟨3, 60000⟩)] (by decide)
  exact ⟨h.1, h.2 [] (by decide)⟩

/-! ### C9: the CNPJ validator -/

section CNPJ

open AutoFillService

theorem parseIntChar_of_digit {c : Char} (h : isDigitChar c = true) :
    parseIntChar c = some (c.toNat - 48) := by
  unfold parseIntChar
  rw [if_pos (of_decide_eq_true h)]

theorem parseIntChar_of_not_digit {c : Char} (h : isDigitChar c = false) :
    parseIntChar c = none := by
  unfold parseIntChar
  rw [if_neg (of_decide_eq_false h)]

theorem all_digit_take {cs : List Char} (k : Nat)
    (h : cs.all isDigitChar = true) : (cs.take k).all isDigitChar = true := by
  rw [List.all_eq_true] at h ⊢
  exact fun c hc => h c (List.mem_of_mem_take hc)

theorem loopSum_eq (cs : List Char) : ∀ w : Nat,
    loopSum cs w =
      if cs.all isDigitChar then
        some (weightedSum (cs.map (fun c => c.toNat - 48))
          (genWeights cs.length w))
      else none := by
  induction cs with
  | nil => intro w; simp [loopSum, weightedSum]
  | cons c rest ih =>
    intro w
    by_cases hc : isDigitChar c = true
    · by_cases hrest : rest.all isDigitChar = true
      · simp only [loopSum, parseIntChar_of_digit hc, ih (nextWeight w),
          hrest, if_true, List.all_cons, hc, Bool.true_and, List.map_cons,
          List.length_cons, genWeights, weightedSum, List.zipWith_cons_cons,
          List.sum_cons]
      · simp [loopSum, parseIntChar_of_digit hc, ih (nextWeight w), hrest, hc]
    · have hc' : isDigitChar c = false := by
        cases h : isDigitChar c
        · rfl
        · exact absurd h hc
      simp [loopSum, parseIntChar_of_not_digit hc', hc']

/-- **C9.** `validateCNPJ` returns `true` exactly on 14-character all-digit
strings that are not a single repeated digit and whose 13th and 14th
characters equal the weighted mod-11 check digits of the preceding digits
(weights `5,4,3,2,9,8,7,6,5,4,3,2` and `6,5,4,3,2,9,8,7,6,5,4,3,2`; a sum `s`
yields `0` if `s % 11 < 2` and `11 - s % 11` otherwise). -/
theorem validateCNPJ_eq_spec (s : String) :
    validateCNPJ s = validateCNPJSpec s := by
  unfold validateCNPJ validateCNPJSpec
  dsimp only
  by_cases hlen : s.data.length = 14
  · cases hcs : s.data with
    | nil => simp [hcs] at hlen
    | cons c rest =>
      rw [hcs] at hlen
      by_cases hrep : repeatedDigit (c :: rest) = true
      · have hall : (c :: rest).all isDigitChar = true := by
          simp only [repeatedDigit, Bool.and_eq_true] at hrep
          rw [List.all_cons, hrep.1, Bool.true_and, List.all_eq_true]
          intro x hx
          rw [List.all_eq_true] at hrep
          have := hrep.2 x hx
          rw [eq_of_beq this]
          exact hrep.1
        have hsame : allSameChar (c :: rest) = true := by
          simp only [repeatedDigit, Bool.and_eq_true] at hrep
          exact hrep.2
        simp [hlen, hrep, hall, hsame]
      · by_cases hall : (c :: rest).all isDigitChar = true
        · have hsame : allSameChar (c :: rest) = false := by
            rcases h : allSameChar (c :: rest) with _ | _
            · rfl
            · exfalso
              apply hrep
              show (isDigitChar c && rest.all (· == c)) = true
              rw [List.all_cons] at hall
              rw [(Bool.and_eq_true _ _).mp hall |>.1, Bool.true_and]
              exact h
          have h12lt : 12 < (c :: rest).length := by rw [hlen]; omega
          have h13lt : 13 < (c :: rest).length := by rw [hlen]; omega
          have hget12 : (c :: rest)[12]? = some ((c :: rest)[12]) :=
            List.getElem?_eq_getElem h12lt
          have hget13 : (c :: rest)[13]? = some ((c :: rest)[13]) :=
            List.getElem?_eq_getElem h13lt
          have hd12 : isDigitChar ((c :: rest)[12]) = true := by
            rw [List.all_eq_true] at hall
            exact hall _ (List.getElem_mem h12lt)
          have hd13 : isDigitChar ((c :: rest)[13]) = true := by
            rw [List.all_eq_true] at hall
            exact hall _ (List.getElem_mem h13lt)
          have htk12 : ((c :: rest).take 12).length = 12 := by
            rw [List.length_take, hlen]
            decide
          have htk13 : ((c :: rest).take 13).length = 13 := by
            rw [List.length_take, hlen]
            decide
          rw [if_neg (by rw [hlen]; omega)]
          rw [hget12, hget13, Option.some_bind, Option.some_bind,
            parseIntChar_of_digit hd12, parseIntChar_of_digit hd13,
            loopSum_eq, loopSum_eq,
            if_pos (all_digit_take 12 hall), if_pos (all_digit_take 13 hall),
            htk12, htk13]
          have hw1 : genWeights 12 5 = cnpjWeights1 := by decide
          have hw2 : genWeights 13 6 = cnpjWeights2 := by decide
          have hrepf : repeatedDigit (c :: rest) = false := by
            rcases h : repeatedDigit (c :: rest) with _ | _
            · rfl
            · exact absurd h hrep
          rw [hw1, hw2, ← List.map_take, ← List.map_take]
          rw [List.getElem?_map, List.getElem?_map, hget12, hget13]
          simp [hlen, hall, hsame, hrepf]
        · have hallf : (c :: rest).all isDigitChar = false := by
            rcases h : (c :: rest).all isDigitChar with _ | _
            · rfl
            · exact absurd h hall
          rw [if_neg (by rw [hlen]; omega)]
          by_cases h13 : ((c :: rest).take 13).all isDigitChar = true
          · have hd13 : isDigitChar ((c :: rest)[13]) = false := by
              rcases h : isDigitChar ((c :: rest)[13]) with _ | _
              · rfl
              · exfalso
                apply hall
                have hsplit : (c :: rest) =
                    (c :: rest).take 13 ++ (c :: rest).drop 13 :=
                  (List.take_append_drop 13 (c :: rest)).symm
                rw [List.all_eq_true]
                intro x hx
                rw [hsplit, List.mem_append] at hx
                rcases hx with hx | hx
                · rw [List.all_eq_true] at h13
                  exact h13 x hx
                · have hdrop : (c :: rest).drop 13 = [(c :: rest)[13]] := by
                    have h1 : (c :: rest).drop 13 =
                        (c :: rest)[13] :: (c :: rest).drop 14 :=
                      List.drop_eq_getElem_cons (by rw [hlen]; omega)
                    rw [h1, List.drop_eq_nil_of_le (by rw [hlen])]
                  rw [hdrop, List.mem_singleton] at hx
                  rw [hx, h]
            have hget13 : (c :: rest)[13]? = some ((c :: rest)[13]) :=
              List.getElem?_eq_getElem (by rw [hlen]; omega)
            rw [hget13, Option.some_bind, parseIntChar_of_not_digit hd13]
            simp [hallf]
          · rw [loopSum_eq ((c :: rest).take 13) 6, if_neg h13]
            simp [hallf]
  · rw [if_pos (by omega)]
    have : (s.data.length == 14) = false := by
      rw [beq_eq_false_iff_ne]
      exact hlen
    rw [this]
    simp

/-- Witness for `validateCNPJ_eq_spec` (the universally quantified statement
has no hypotheses, but we exhibit both on a concrete valid CNPJ). -/
theorem validateCNPJ_eq_spec_witness :
    validateCNPJ "11222333000181" = true ∧
    validateCNPJSpec "11222333000181" = true :=
  ⟨by decide, (validateCNPJ_eq_spec "11222333000181") ▸ (by decide)⟩

end CNPJ

/-! ### C6: session-cookie authentication on protected routes -/

theorem middleware_step5_reached (verify : String → Option JwtPayload)
    (req : MwRequest) (now : Nat) (st : MwState)
    (hip : isIPBlocked (getClientIP req) = false)
    (hsus : detectSuspiciousActivity req = false)
    (hrl : RATE_LIMITED_ROUTES.any (fun r => strStartsWith req.pathname r) = true →
      (checkRateLimit (getClientIP req) req.pathname now st.rl).1.allowed = true)
    (hcsrf : ((req.method = "POST" ∨ req.method = "PUT" ∨
          req.method = "DELETE") ∧
        CSRF_PROTECTED_ROUTES.any (fun r => strStartsWith req.pathname r) = true) →
      jsStr req.xCsrfToken ≠ "" ∧
      (validateCSRFToken (jsStr req.xCsrfToken) (getClientIP req) now
        st.csrf).1 = true) :
    ∃ stx : MwState, middleware verify req now st =
      if PROTECTED_ROUTES.any (fun r => strStartsWith req.pathname r) then
        (if jsStr req.cookieAuthToken = "" then
          (.res 401 "Authentication required", stx)
        else
          match verify (jsStr req.cookieAuthToken) with
          | some decoded =>
            (.next [("x-user-id", decoded.userId),
                    ("x-user-email", decoded.email),
                    ("x-user-role", decoded.role)], stx)
          | none => (.res 401 "Invalid token", stx))
      else (.next securityHeaders, stx) := by
  unfold middleware
  dsimp only
  rw [if_neg (by simp [hip]), if_neg (by simp [hsus])]
  by_cases hr : RATE_LIMITED_ROUTES.any (fun r => strStartsWith req.pathname r) =
      true
  · rw [if_pos hr]
    have hall := hrl hr
    rw [if_neg (by simp [hall])]
    by_cases hcond : (req.method = "POST" ∨ req.method = "PUT" ∨
        req.method = "DELETE") ∧
        CSRF_PROTECTED_ROUTES.any (fun r => strStartsWith req.pathname r) = true
    · rw [if_pos hcond]
      obtain ⟨hne, hv⟩ := hcsrf hcond
      rw [if_neg hne, if_neg (by simp [hv])]
      exact ⟨_, rfl⟩
    · rw [if_neg hcond]
      exact ⟨_, rfl⟩
  · rw [if_neg hr]
    by_cases hcond : (req.method = "POST" ∨ req.method = "PUT" ∨
        req.method = "DELETE") ∧
        CSRF_PROTECTED_ROUTES.any (fun r => strStartsWith req.pathname r) = true
    · rw [if_pos hcond]
      obtain ⟨hne, hv⟩ := hcsrf hcond
      rw [if_neg hne, if_neg (by simp [hv])]
      exact ⟨_, rfl⟩
    · rw [if_neg hcond]
      exact ⟨_, rfl⟩

/-- **C6.** For a request to a protected route (`/api/forms`,
`/api/dashboard`, `/api/export`) that passes the IP-block,
suspicious-activity, rate-limit and CSRF checks, the middleware returns
status 401 when there is no `auth-token` cookie, returns 401 when the
cookie's token fails JWT verification, and with a verifiable token forwards
the request with the user's id, email and role set as headers. -/
theorem middleware_session_auth (verify : String → Option JwtPayload)
    (req : MwRequest) (now : Nat) (st : MwState)
    (hprot : PROTECTED_ROUTES.any (fun r => strStartsWith req.pathname r) = true)
    (hip : isIPBlocked (getClientIP req) = false)
    (hsus : detectSuspiciousActivity req = false)
    (hrl : RATE_LIMITED_ROUTES.any (fun r => strStartsWith req.pathname r) = true →
      (checkRateLimit (getClientIP req) req.pathname now st.rl).1.allowed = true)
    (hcsrf : ((req.method = "POST" ∨ req.method = "PUT" ∨
          req.method = "DELETE") ∧
        CSRF_PROTECTED_ROUTES.any (fun r => strStartsWith req.pathname r) = true) →
      jsStr req.xCsrfToken ≠ "" ∧
      (validateCSRFToken (jsStr req.xCsrfToken) (getClientIP req) now
        st.csrf).1 = true) :
    (jsStr req.cookieAuthToken = "" →
      (middleware verify req now st).1 = .res 401 "Authentication required") ∧
    (jsStr req.cookieAuthToken ≠ "" →
      verify (jsStr req.cookieAuthToken) = none →
      (middleware verify req now st).1 = .res 401 "Invalid token") ∧
    (∀ p : JwtPayload, jsStr req.cookieAuthToken ≠ "" →
      verify (jsStr req.cookieAuthToken) = some p →
      (middleware verify req now st).1 =
        .next [("x-user-id", p.userId), ("x-user-email", p.email),
               ("x-user-role", p.role)]) := by
  obtain ⟨stx, hmw⟩ := middleware_step5_reached verify req now st hip hsus hrl
    hcsrf
  refine ⟨?_, ?_, ?_⟩
  · intro htok
    simp [hmw, hprot, htok]
  · intro htok hv
    simp [hmw, hprot, htok, hv]
  · intro p htok hv
    simp [hmw, hprot, htok, hv]

/-- Witness for `middleware_session_auth`: a clean GET request to
`/api/dashboard` is forwarded with user headers when the cookie verifies,
and rejected with 401 without a cookie or with an unverifiable one. -/
theorem middleware_session_auth_witness :
    (middleware
        (fun t => if t = "good" then some ⟨"u1", "u@example.com", "admin"⟩
          else none)
        ⟨"GET", "/api/dashboard", some "9.9.9.9", none, none,
          some "Mozilla/5.0 (X11; Linux x86_64) Firefox/120.0", none,
          some "good", none⟩ 0 ⟨[], []⟩).1 =
      .next [("x-user-id", "u1"), ("x-user-email", "u@example.com"),
             ("x-user-role", "admin")] ∧
    (middleware
        (fun t => if t = "good" then some ⟨"u1", "u@example.com", "admin"⟩
          else none)
        ⟨"GET", "/api/dashboard", some "9.9.9.9", none, none,
          some "Mozilla/5.0 (X11; Linux x86_64) Firefox/120.0", none,
          none, none⟩ 0 ⟨[], []⟩).1 = .res 401 "Authentication required" ∧
    (middleware
        (fun t => if t = "good" then some ⟨"u1", "u@example.com", "admin"⟩
          else none)
        ⟨"GET", "/api/dashboard", some "9.9.9.9", none, none,
          some "Mozilla/5.0 (X11; Linux x86_64) Firefox/120.0", none,
          some "bad", none⟩ 0 ⟨[], []⟩).1 = .res 401 "Invalid token" := by
  refine ⟨?_, ?_, ?_⟩
  · exact (middleware_session_auth
      (fun t => if t = "good" then some ⟨"u1", "u@example.com", "admin"⟩
        else none)
      ⟨"GET", "/api/dashboard", some "9.9.9.9", none, none,
        some "Mozilla/5.0 (X11; Linux x86_64) Firefox/120.0", none,
        some "good", none⟩ 0 ⟨[], []⟩
      (by decide) (by decide) (by decide) (by decide) (by decide)).2.2
      ⟨"u1", "u@example.com", "admin"⟩ (by decide) rfl
  · exact (middleware_session_auth
      (fun t => if t = "good" then some ⟨"u1", "u@example.com", "admin"⟩
        else none)
      ⟨"GET", "/api/dashboard", some "9.9.9.9", none, none,
        some "Mozilla/5.0 (X11; Linux x86_64) Firefox/120.0", none,
        none, none⟩ 0 ⟨[], []⟩
      (by decide) (by decide) (by decide) (by decide) (by decide)).1 rfl
  · exact (middleware_session_auth
      (fun t => if t = "good" then some ⟨"u1", "u@example.com", "admin"⟩
        else none)
      ⟨"GET", "/api/dashboard", some "9.9.9.9", none, none,
        some "Mozilla/5.0 (X11; Linux x86_64) Firefox/120.0", none,
        some "bad", none⟩ 0 ⟨[], []⟩
      (by decide) (by decide) (by decide) (by decide) (by decide)).2.1
      (by decide) rfl

/-! ### C5: determinism of the exporters -/

section ExporterDeterminism

open FormExporter

/-- **C5 counterexample.** `exportAsJSON` embeds the invocation timestamp
(`exportedAt: new Date().toISOString()`), so two invocations of the export
operation on the same form and options do *not* return the identical output
string when the clock has advanced between them. -/
theorem exportAsJSON_time_counterexample :
    exportAsJSON ⟨"f1", "T", "", [], "draft", "c", "u"⟩ {}
        "2024-01-01T00:00:00.000Z" ≠
      exportAsJSON ⟨"f1", "T", "", [], "draft", "c", "u"⟩ {}
        "2024-01-01T00:00:01.000Z" := by decide

/-- **C5 (amended).** The exporters are pure string templating over the form,
the options, and (for JSON) the invocation timestamp: the HTML export is
identical across invocations regardless of the clock (the HTML path reads no
clock), and two JSON exports of the same form and options coincide whenever
the invocations observe the same timestamp. -/
theorem export_deterministic (form : Form) (ho : HTMLExportOptions)
    (jo : JSONExportOptions) (t₁ t₂ : String) :
    exportAsHTMLAt t₁ form ho = exportAsHTMLAt t₂ form ho ∧
    (t₁ = t₂ → exportAsJSON form jo t₁ = exportAsJSON form jo t₂) :=
  ⟨rfl, fun h => h ▸ rfl⟩

/-- Witness for `export_deterministic` at a concrete form, options and
timestamps. -/
theorem export_deterministic_witness :
    exportAsHTMLAt "2024-01-01T00:00:00.000Z"
        ⟨"f1", "T", "", [], "draft", "c", "u"⟩ {} =
      exportAsHTMLAt "2024-01-01T00:00:01.000Z"
        ⟨"f1", "T", "", [], "draft", "c", "u"⟩ {} ∧
    exportAsJSON ⟨"f1", "T", "", [], "draft", "c", "u"⟩ {}
        "2024-01-01T00:00:00.000Z" =
      exportAsJSON ⟨"f1", "T", "", [], "draft", "c", "u"⟩ {}
        "2024-01-01T00:00:00.000Z" :=
  ⟨(export_deterministic ⟨"f1", "T", "", [], "draft", "c", "u"⟩ {} {}
      "2024-01-01T00:00:00.000Z" "2024-01-01T00:00:01.000Z").1,
    (export_deterministic ⟨"f1", "T", "", [], "draft", "c", "u"⟩ {} {}
      "2024-01-01T00:00:00.000Z" "2024-01-01T00:00:00.000Z").2 rfl⟩

end ExporterDeterminism

/-! ### C10: user content in exported HTML is always HTML-escaped -/

section Escaping

open FormExporter

theorem foldl_append_data (l : List String) (a : String) :
    (l.foldl (· ++ ·) a).data = a.data ++ (l.map String.data).join := by
  induction l generalizing a with
  | nil => simp
  | cons x xs ih =>
    simp [List.foldl_cons, ih, String.data_append, List.append_assoc]

theorem join_data (l : List String) :
    (String.join l).data = (l.map String.data).join := by
  have h := foldl_append_data l ""
  simpa [String.join] using h

theorem escapeHtml_data (s : String) :
    (escapeHtml s).data = ((s.data.map escChar).map String.data).join := by
  rw [escapeHtml, join_data]

theorem escChar_no_angle (c₀ c : Char) (h : c ∈ (escChar c₀).data) :
    c ≠ '<' ∧ c ≠ '>' := by
  unfold escChar at h
  split_ifs at h with h1 h2 h3
  · simp only [show ("&amp;" : String).data = ['&', 'a', 'm', 'p', ';'] from
      rfl, List.mem_cons, List.not_mem_nil, or_false] at h
    rcases h with rfl | rfl | rfl | rfl | rfl <;> exact ⟨by decide, by decide⟩
  · simp only [show ("&lt;" : String).data = ['&', 'l', 't', ';'] from rfl,
      List.mem_cons, List.not_mem_nil, or_false] at h
    rcases h with rfl | rfl | rfl | rfl <;> exact ⟨by decide, by decide⟩
  · simp only [show ("&gt;" : String).data = ['&', 'g', 't', ';'] from rfl,
      List.mem_cons, List.not_mem_nil, or_false] at h
    rcases h with rfl | rfl | rfl | rfl <;> exact ⟨by decide, by decide⟩
  · have : c = c₀ := by simpa using h
    subst this
    exact ⟨h2, h3⟩

theorem escChar_len_pos (c : Char) : 1 ≤ (escChar c).data.length := by
  unfold escChar
  split_ifs
  · decide
  · decide
  · decide
  · simp

theorem escChar_special_len (c : Char)
    (h : c = '&' ∨ c = '<' ∨ c = '>') : 4 ≤ (escChar c).data.length := by
  rcases h with rfl | rfl | rfl <;> decide

theorem length_le_sum_escChar (l : List Char) :
    l.length ≤ ((l.map escChar).map (fun x => x.data.length)).sum := by
  induction l with
  | nil => simp
  | cons a rest ih =>
    simp only [List.map_cons, List.sum_cons, List.length_cons]
    have := escChar_len_pos a
    omega

theorem length_lt_sum_escChar (l : List Char) (c : Char) (hc : c ∈ l)
    (hs : c = '&' ∨ c = '<' ∨ c = '>') :
    l.length < ((l.map escChar).map (fun x => x.data.length)).sum := by
  induction l with
  | nil => simp at hc
  | cons a rest ih =>
    simp only [List.map_cons, List.sum_cons, List.length_cons]
    rcases List.mem_cons.mp hc with rfl | hmem
    · have h4 := escChar_special_len c hs
      have := length_le_sum_escChar rest
      omega
    · have := escChar_len_pos a
      have := ih hmem
      omega

theorem escapeHtml_eq_empty_iff (s : String) : escapeHtml s = "" ↔ s = "" := by
  constructor
  · intro h
    cases s with
    | mk data =>
      cases data with
      | nil => rfl
      | cons c cs =>
        exfalso
        have hd : (escapeHtml ⟨c :: cs⟩).data =
            (escChar c).data ++ ((cs.map escChar).map String.data).join := by
          rw [escapeHtml_data]
          simp
        have hne : (escChar c).data ≠ [] := by
          unfold escChar
          split_ifs
          · decide
          · decide
          · decide
          · simp
        have hnil : (escapeHtml ⟨c :: cs⟩).data = [] := by rw [h]
        rw [hd] at hnil
        exact hne (List.append_eq_nil.mp hnil).1
  · rintro rfl
    rfl

theorem jsOr_map_escapeHtml (p : Option String) (d : String)
    (hd : escapeHtml d = d) :
    jsOr (p.map escapeHtml) d = escapeHtml (jsOr p d) := by
  cases p with
  | none => simp [jsOr, hd]
  | some s =>
    by_cases hs : s = ""
    · subst hs
      have h0 : escapeHtml "" = "" := rfl
      simp [jsOr, h0, hd]
    · have hne : escapeHtml s ≠ "" :=
        fun h => hs ((escapeHtml_eq_empty_iff s).mp h)
      simp [jsOr, hs, hne]

theorem generateFieldHTMLEsc_escape (field : FormField) :
    generateFieldHTMLEsc (fun s => s) (escapeField field) =
      generateFieldHTML field := by
  unfold generateFieldHTMLEsc generateFieldHTML escapeField
  dsimp only
  simp only [jsOr_map_escapeHtml _ _ (by decide : escapeHtml "" = ""),
    jsOr_map_escapeHtml _ _
      (by decide : escapeHtml "Ex: 12345-678" = "Ex: 12345-678"),
    jsOr_map_escapeHtml _ _
      (by decide :
        escapeHtml "Ex: 12.345.678/0001-90" = "Ex: 12.345.678/0001-90")]
  cases field.options with
  | none => rfl
  | some opts =>
    simp only [Option.map_some', List.enum_map, List.map_map,
      Function.comp_def, Prod.map_apply, id_eq]
    rfl

/-- **C10.** In the HTML produced by `exportAsHTML`, every occurrence of
user-controlled form content — title, description, field labels,
placeholders, select/radio option values — is inserted as the HTML-escaped
form of the raw string: the output equals the un-escaped rendering of the
pre-escaped form; the escaped form contains no `<` or `>` character; and
whenever the raw string contains `&`, `<` or `>`, the inserted escaped form
differs from the raw string. -/
theorem exportAsHTML_escapes_content (form : Form)
    (options : HTMLExportOptions) :
    exportAsHTML form options =
      generateHTMLTemplateEsc (fun s => s) (escapeForm form) options ∧
    (∀ s : String, ∀ c ∈ (escapeHtml s).data, c ≠ '<' ∧ c ≠ '>') ∧
    (∀ s : String, (∃ c ∈ s.data, c = '&' ∨ c = '<' ∨ c = '>') →
      escapeHtml s ≠ s) := by
  refine ⟨?_, ?_, ?_⟩
  · unfold exportAsHTML generateHTMLTemplate generateHTMLTemplateEsc
      generateFormHTML generateFormHTMLEsc escapeForm
    dsimp only
    rw [List.map_map]
    have hfields : (fun f => generateFieldHTMLEsc (fun s => s) (escapeField f))
        = generateFieldHTML := by
      funext f
      exact generateFieldHTMLEsc_escape f
    rw [show ((generateFieldHTMLEsc fun s => s) ∘ escapeField) =
        generateFieldHTML from hfields]
    by_cases hdesc : form.description = ""
    · rw [hdesc]
      rfl
    · have hne : escapeHtml form.description ≠ "" :=
        fun h => hdesc ((escapeHtml_eq_empty_iff form.description).mp h)
      rw [if_neg hdesc, if_neg hne]
      rfl
  · intro s c hc
    rw [show (escapeHtml s).data =
        ((s.data.map escChar).map String.data).join from escapeHtml_data s]
      at hc
    obtain ⟨ld, hld, hcld⟩ := List.mem_join.mp hc
    obtain ⟨x, hx, rfl⟩ := List.mem_map.mp hld
    obtain ⟨c₀, _, rfl⟩ := List.mem_map.mp hx
    exact escChar_no_angle c₀ c hcld
  · intro s ⟨c, hc, hspec⟩ heq
    have hlen : (escapeHtml s).data.length = s.data.length :=
      congrArg (fun t => t.data.length) heq
    rw [escapeHtml_data s, List.length_join, List.map_map] at hlen
    have hlt := length_lt_sum_escChar s.data c hc hspec
    simp only [List.map_map, Function.comp_def] at hlen hlt
    omega

/-- Witness for `exportAsHTML_escapes_content`: a concrete form whose title,
description, label and placeholder contain `&`, `<`, `>`, evaluated through
the export; a character of an escaped string is never `<` or `>`; and
escaping a string containing `<` changes it. -/
theorem exportAsHTML_escapes_content_witness :
    (exportAsHTML
        ⟨"f1", "My <Form>", "desc & stuff",
          [⟨"n", "text", "Name <b>", some "p & q", true, none⟩],
          "active", "c", "u"⟩ {} =
      generateHTMLTemplateEsc (fun s => s)
        (escapeForm
          ⟨"f1", "My <Form>", "desc & stuff",
            [⟨"n", "text", "Name <b>", some "p & q", true, none⟩],
            "active", "c", "u"⟩) {}) ∧
    ('b' ≠ '<' ∧ 'b' ≠ '>') ∧
    escapeHtml "<b>" ≠ "<b>" :=
  ⟨(exportAsHTML_escapes_content
      ⟨"f1", "My <Form>", "desc & stuff",
        [⟨"n", "text", "Name <b>", some "p & q", true, none⟩],
        "active", "c", "u"⟩ {}).1,
    (exportAsHTML_escapes_content
      ⟨"f1", "My <Form>", "desc & stuff",
        [⟨"n", "text", "Name <b>", some "p & q", true, none⟩],
        "active", "c", "u"⟩ {}).2.1 "<b>" 'b' (by decide),
    (exportAsHTML_escapes_content
      ⟨"f1", "My <Form>", "desc & stuff",
        [⟨"n", "text", "Name <b>", some "p & q", true, none⟩],
        "active", "c", "u"⟩ {}).2.2 "<b>" ⟨'<', by decide, by decide⟩⟩

end Escaping

/-! ### C7: submissions are collected only for published forms -/

section SubmissionsThm

open Submissions

/-- **C7.** The submissions POST handler inserts a row only when the
referenced form exists with status `active`; when no such form exists it
returns 404 with the submissions store unchanged, and when a required field
of the form is missing or blank in the submitted data it returns 400 with
the submissions store unchanged (the CSRF-header and schema checks that
precede the lookup are taken as hypotheses where the claim presumes the
request reaches it). -/
theorem submissionsPOST_published_only
    (xCsrfToken : Option String) (body : Option SubBody)
    (xff ua : Option String) (now : Nat) (db : Db) :
    ((submissionsPOST xCsrfToken body xff ua now db).2.submissions ≠
        db.submissions →
      ∃ b, body = some b ∧ (findActiveForm db b.formId).isSome) ∧
    (∀ b, jsStr xCsrfToken ≠ "" → ¬(jsStr xCsrfToken).length < 10 →
      body = some b → b.formId ≠ "" →
      findActiveForm db b.formId = none →
      submissionsPOST xCsrfToken body xff ua now db = (404, db)) ∧
    (∀ b form f, jsStr xCsrfToken ≠ "" → ¬(jsStr xCsrfToken).length < 10 →
      body = some b → b.formId ≠ "" →
      findActiveForm db b.formId = some form →
      f ∈ form.fields → f.required = true →
      (b.data.lookup f.id = none ∨
        ∃ v, b.data.lookup f.id = some v ∧
          (jsFalsy v = true ∨ jsTrim (jsToString v) = "")) →
      submissionsPOST xCsrfToken body xff ua now db = (400, db)) := by
  refine ⟨?_, ?_, ?_⟩
  · intro hne
    unfold submissionsPOST at hne
    by_cases h1 : jsStr xCsrfToken = ""
    · simp [h1] at hne
    · by_cases h2 : (jsStr xCsrfToken).length < 10
      · simp [h1, h2] at hne
      · cases hb : body with
        | none => rw [hb] at hne; simp [h1, h2] at hne
        | some b =>
          rw [hb] at hne
          by_cases h3 : b.formId = ""
          · simp [h1, h2, h3] at hne
          · cases hf : findActiveForm db b.formId with
            | none => simp [h1, h2, h3, hf] at hne
            | some form => exact ⟨b, rfl, by rw [hf]; rfl⟩
  · intro b h1 h2 hb h3 hf
    subst hb
    simp [submissionsPOST, h1, h2, h3, hf]
  · intro b form f h1 h2 hb h3 hf hmem hreq hmiss
    subst hb
    have hfm : f ∈ requiredMissing form b.data := by
      unfold requiredMissing
      rw [List.mem_filter, List.mem_filter]
      refine ⟨⟨hmem, by simp [hreq]⟩, ?_⟩
      rcases hmiss with hnone | ⟨v, hv, hbad⟩
      · simp [hnone]
      · rcases hbad with hbad | hbad
        · simp [hv, hbad]
        · simp [hv, hbad]
    have hne : requiredMissing form b.data ≠ [] :=
      List.ne_nil_of_mem hfm
    simp [submissionsPOST, h1, h2, h3, hf, hne]

/-- Witness for `submissionsPOST_published_only`: a valid submission to an
active form inserts a row (so the form lookup succeeded); an unknown form id
gives 404 leaving the store unchanged; a blank required field gives 400
leaving the store unchanged. -/
theorem submissionsPOST_published_only_witness :
    (∃ b, some (⟨"f1", [("name", JsValue.str "Ada")]⟩ : SubBody) = some b ∧
      (findActiveForm
        ⟨[⟨"f1", "active", [⟨"name", "Name", true⟩]⟩], []⟩ b.formId).isSome) ∧
    submissionsPOST (some "0123456789") (some ⟨"nope", []⟩) (some "7.7.7.7")
        (some "ua-string") 0
        ⟨[⟨"f1", "active", [⟨"name", "Name", true⟩]⟩], []⟩ =
      (404, ⟨[⟨"f1", "active", [⟨"name", "Name", true⟩]⟩], []⟩) ∧
    submissionsPOST (some "0123456789")
        (some ⟨"f1", [("name", JsValue.str "   ")]⟩) (some "7.7.7.7")
        (some "ua-string") 0
        ⟨[⟨"f1", "active", [⟨"name", "Name", true⟩]⟩], []⟩ =
      (400, ⟨[⟨"f1", "active", [⟨"name", "Name", true⟩]⟩], []⟩) := by
  refine ⟨?_, ?_, ?_⟩
  · exact (submissionsPOST_published_only (some "0123456789")
      (some ⟨"f1", [("name", JsValue.str "Ada")]⟩) (some "7.7.7.7")
      (some "ua-string") 0
      ⟨[⟨"f1", "active", [⟨"name", "Name", true⟩]⟩], []⟩).1 (by decide)
  · exact (submissionsPOST_published_only (some "0123456789")
      (some ⟨"nope", []⟩) (some "7.7.7.7") (some "ua-string") 0
      ⟨[⟨"f1", "active", [⟨"name", "Name", true⟩]⟩], []⟩).2.1
      ⟨"nope", []⟩ (by decide) (by decide) rfl (by decide) (by decide)
  · exact (submissionsPOST_published_only (some "0123456789")
      (some ⟨"f1", [("name", JsValue.str "   ")]⟩) (some "7.7.7.7")
      (some "ua-string") 0
      ⟨[⟨"f1", "active", [⟨"name", "Name", true⟩]⟩], []⟩).2.2
      ⟨"f1", [("name", JsValue.str "   ")]⟩
      ⟨"f1", "active", [⟨"name", "Name", true⟩]⟩
      ⟨"name", "Name", true⟩ (by decide) (by decide) rfl (by decide)
      (by decide) (by decide) rfl
      (Or.inr ⟨JsValue.str "   ", by decide, Or.inr (by decide)⟩)

end SubmissionsThm

/-! ### C2: constant-time comparison decides string equality -/

/-- **C2.** CSRF token validation compares the presented token against the
stored token via `constantTimeCompare`, and that comparison returns `true`
exactly when the two strings are character-for-character equal. -/
theorem constantTimeCompare_iff_eq :
    (∀ a b : String, CSRFProtection.constantTimeCompare a b = true ↔ a = b) ∧
    (∀ (token sessionId : String) (now : Nat)
      (tokens : List (String × CSRFProtection.TokenEntry))
      (e : CSRFProtection.TokenEntry),
      token.length = 64 →
      tokens.lookup (CSRFProtection.csrfKey sessionId token) = some e →
      ¬e.expires < now → e.used = false →
      (CSRFProtection.validateToken token sessionId now tokens).1 =
        CSRFProtection.constantTimeCompare token e.token) := by
  constructor
  · intro a b
    unfold CSRFProtection.constantTimeCompare
    by_cases hlen : a.length = b.length
    · have hdlen : a.data.length = b.data.length := hlen
      simp only [hlen, ne_eq, not_true_eq_false, if_false, beq_iff_eq,
        foldl_or_xor_eq_zero, true_and, if_neg (not_not_intro hlen)]
      constructor
      · intro h
        have : a.data = b.data := list_eq_of_zip_eq a.data b.data hdlen h
        cases a with
        | mk da =>
          cases b with
          | mk db => exact congrArg String.mk this
      · rintro rfl
        exact zip_self_eq a.data
    · have hne : a ≠ b := fun h => hlen (h ▸ rfl)
      simp [hlen, hne]
  · intro token sessionId now tokens e h64 he hexp hused
    have hfmt : ¬(token = "" ∨ token.length ≠ 64) := by
      rintro (rfl | h)
      · simp at h64
      · exact h h64
    simp [CSRFProtection.validateToken, hfmt, he, hexp, hused]

/-- Witness for `constantTimeCompare_iff_eq`: equal strings compare `true`,
and on a live stored entry `validateToken` returns exactly the constant-time
comparison of the presented and stored tokens. -/
theorem constantTimeCompare_iff_eq_witness :
    CSRFProtection.constantTimeCompare "abc" "abc" = true ∧
    (CSRFProtection.validateToken
        "0123456789abcdef0123456789abcdef0123456789abcdef0123456789abcdef"
        "sess" 10
        [(CSRFProtection.csrfKey "sess"
            "0123456789abcdef0123456789abcdef0123456789abcdef0123456789abcdef",
          ⟨"0123456789abcdef0123456789abcdef0123456789abcdef0123456789abcdef",
            100, false⟩)]).1 =
      CSRFProtection.constantTimeCompare
        "0123456789abcdef0123456789abcdef0123456789abcdef0123456789abcdef"
        "0123456789abcdef0123456789abcdef0123456789abcdef0123456789abcdef" :=
  ⟨(constantTimeCompare_iff_eq.1 "abc" "abc").mpr rfl,
    constantTimeCompare_iff_eq.2
      "0123456789abcdef0123456789abcdef0123456789abcdef0123456789abcdef"
      "sess" 10
      [(CSRFProtection.csrfKey "sess"
          "0123456789abcdef0123456789abcdef0123456789abcdef0123456789abcdef",
        ⟨"0123456789abcdef0123456789abcdef0123456789abcdef0123456789abcdef",
          100, false⟩)]
      ⟨"0123456789abcdef0123456789abcdef0123456789abcdef0123456789abcdef",
        100, false⟩
      (by decide) (by decide) (by decide) rfl⟩

/-! ### C3: expired tokens are rejected and removed -/

/-- **C3.** A generated CSRF token (a 64-character hex string) validates only
before its expiry, which is one hour (`3600000` ms) after generation: when
validation runs strictly after the stored expiry, it returns `false` and
removes the token's entry from the in-memory store; and `generateToken`
stores the fresh token with expiry `now + 3600000`. -/
theorem validateToken_expiry (token sessionId : String) (now : Nat)
    (tokens : List (String × CSRFProtection.TokenEntry))
    (e : CSRFProtection.TokenEntry)
    (h64 : token.length = 64)
    (he : tokens.lookup (CSRFProtection.csrfKey sessionId token) = some e)
    (hexp : e.expires < now) :
    (CSRFProtection.validateToken token sessionId now tokens).1 = false ∧
    (CSRFProtection.validateToken token sessionId now tokens).2.lookup
        (CSRFProtection.csrfKey sessionId token) = none ∧
    (∀ st : List (String × CSRFProtection.TokenEntry),
      (CSRFProtection.generateToken token sessionId now st).2.lookup
          (CSRFProtection.csrfKey sessionId token) =
        some ⟨token, now + 3600000, false⟩) := by
  have hfmt : ¬(token = "" ∨ token.length ≠ 64) := by
    rintro (rfl | h)
    · simp at h64
    · exact h h64
  refine ⟨?_, ?_, ?_⟩
  · simp [CSRFProtection.validateToken, hfmt, he, hexp]
  · simp [CSRFProtection.validateToken, hfmt, he, hexp, lookup_mapDel_self]
  · intro st
    simp [CSRFProtection.generateToken, CSRFProtection.TOKEN_EXPIRY,
      lookup_mapSet_self]

/-- Witness for `validateToken_expiry` on a concrete expired entry. -/
theorem validateToken_expiry_witness :
    (CSRFProtection.validateToken
        "0123456789abcdef0123456789abcdef0123456789abcdef0123456789abcdef"
        "sess" 4000000
        [(CSRFProtection.csrfKey "sess"
            "0123456789abcdef0123456789abcdef0123456789abcdef0123456789abcdef",
          ⟨"0123456789abcdef0123456789abcdef0123456789abcdef0123456789abcdef",
            3600000, false⟩)]).1 = false ∧
    (CSRFProtection.validateToken
        "0123456789abcdef0123456789abcdef0123456789abcdef0123456789abcdef"
        "sess" 4000000
        [(CSRFProtection.csrfKey "sess"
            "0123456789abcdef0123456789abcdef0123456789abcdef0123456789abcdef",
          ⟨"0123456789abcdef0123456789abcdef0123456789abcdef0123456789abcdef",
            3600000, false⟩)]).2.lookup
        (CSRFProtection.csrfKey "sess"
          "0123456789abcdef0123456789abcdef0123456789abcdef0123456789abcdef") =
      none ∧
    (CSRFProtection.generateToken
        "0123456789abcdef0123456789abcdef0123456789abcdef0123456789abcdef"
        "sess" 4000000 []).2.lookup
        (CSRFProtection.csrfKey "sess"
          "0123456789abcdef0123456789abcdef0123456789abcdef0123456789abcdef") =
      some ⟨"0123456789abcdef0123456789abcdef0123456789abcdef0123456789abcdef",
        4000000 + 3600000, false⟩ := by
  have h := validateToken_expiry
    "0123456789abcdef0123456789abcdef0123456789abcdef0123456789abcdef"
    "sess" 4000000
    [(CSRFProtection.csrfKey "sess"
        "0123456789abcdef0123456789abcdef0123456789abcdef0123456789abcdef",
      ⟨"0123456789abcdef0123456789abcdef0123456789abcdef0123456789abcdef",
        3600000, false⟩)]
    ⟨"0123456789abcdef0123456789abcdef0123456789abcdef0123456789abcdef",
      3600000, false⟩
    (by decide) (by decide) (by decide)
  exact ⟨h.1, h.2.1, h.2.2 []⟩

/-! ### C8: a token found in the store never validates twice -/

section NoReplay

open CSRFProtection

theorem validateToken_dead_result (token sessionId : String) (now : Nat)
    (tokens : List (String × TokenEntry))
    (h : deadKey tokens (csrfKey sessionId token)) :
    (validateToken token sessionId now tokens).1 = false := by
  unfold validateToken
  by_cases hfmt : token = "" ∨ token.length ≠ 64
  · simp [hfmt]
  · rcases h with hnone | ⟨e, he, hused⟩
    · simp [hfmt, hnone]
    · by_cases hexp : e.expires < now
      · simp [hfmt, he, hexp]
      · simp [hfmt, he, hexp, hused]

theorem validateToken_preserves_dead (token sessionId : String) (now : Nat)
    (tokens : List (String × TokenEntry)) (key : String)
    (h : deadKey tokens key) :
    deadKey (validateToken token sessionId now tokens).2 key := by
  unfold validateToken
  by_cases hfmt : token = "" ∨ token.length ≠ 64
  · simpa [hfmt] using h
  · cases hl : tokens.lookup (csrfKey sessionId token) with
    | none => simpa [hfmt, hl] using h
    | some e =>
      by_cases hkey : key = csrfKey sessionId token
      · subst hkey
        by_cases hexp : e.expires < now
        · simp only [hfmt, hl, hexp, if_false, if_true]
          exact Or.inl (lookup_mapDel_self _ _)
        · rcases h with hnone | ⟨e', he', hused'⟩
          · simp [hl] at hnone
          · have heq : e' = e := by
              rw [hl] at he'
              exact (Option.some.inj he').symm
            subst heq
            simp only [hfmt, hl, hexp, hused', if_false, if_true, ite_true,
              ite_false]
            exact Or.inr ⟨e', hl, hused'⟩
      · have hk : key ≠ csrfKey sessionId token := hkey
        by_cases hexp : e.expires < now
        · simp only [hfmt, hl, hexp, if_false, if_true]
          rcases h with hnone | ⟨e', he', hused'⟩
          · exact Or.inl ((lookup_mapDel_ne _ _ _ hk).trans hnone)
          · exact Or.inr ⟨e', (lookup_mapDel_ne _ _ _ hk).trans he', hused'⟩
        · by_cases hused : e.used
          · simpa [hfmt, hl, hexp, hused] using h
          · simp only [hfmt, hl, hexp, hused, if_false]
            rcases h with hnone | ⟨e', he', hused'⟩
            · exact Or.inl ((lookup_mapSet_ne _ _ _ _ hk).trans hnone)
            · exact Or.inr ⟨e', (lookup_mapSet_ne _ _ _ _ hk).trans he',
                hused'⟩

theorem validateToken_found_dead (token sessionId : String) (now : Nat)
    (tokens : List (String × TokenEntry)) (e : TokenEntry)
    (h64 : token.length = 64)
    (he : tokens.lookup (csrfKey sessionId token) = some e) :
    deadKey (validateToken token sessionId now tokens).2
      (csrfKey sessionId token) := by
  have hfmt : ¬(token = "" ∨ token.length ≠ 64) := by
    rintro (rfl | h)
    · simp at h64
    · exact h h64
  unfold validateToken
  by_cases hexp : e.expires < now
  · simp only [hfmt, he, hexp, if_false, if_true]
    exact Or.inl (lookup_mapDel_self _ _)
  · by_cases hused : e.used
    · simp only [hfmt, he, hexp, hused, if_false, if_true]
      exact Or.inr ⟨e, he, hused⟩
    · simp only [hfmt, he, hexp, hused, if_false]
      exact Or.inr ⟨_, lookup_mapSet_self _ _ _, rfl⟩

theorem runValidateCalls_preserves_dead (calls : List (String × String × Nat))
    (tokens : List (String × TokenEntry)) (key : String)
    (h : deadKey tokens key) :
    deadKey (runValidateCalls calls tokens) key := by
  induction calls generalizing tokens with
  | nil => exact h
  | cons c rest ih =>
    obtain ⟨tok, sid, t⟩ := c
    exact ih _ (validateToken_preserves_dead tok sid t tokens key h)

/-- **C8.** A CSRF token managed by `CSRFProtection` never validates
successfully twice: after any `validateToken` call on a session and token
that found the token's entry (well-formed 64-character token, entry present),
every later `validateToken` call for the same session and token — after any
interleaved sequence of further `validateToken` calls — returns `false`. -/
theorem validateToken_no_replay (token sessionId : String) (now : Nat)
    (tokens : List (String × TokenEntry)) (e : TokenEntry)
    (h64 : token.length = 64)
    (he : tokens.lookup (csrfKey sessionId token) = some e) :
    ∀ (calls : List (String × String × Nat)) (t' : Nat),
      (validateToken token sessionId t'
        (runValidateCalls calls
          (validateToken token sessionId now tokens).2)).1 = false := by
  intro calls t'
  apply validateToken_dead_result
  apply runValidateCalls_preserves_dead
  exact validateToken_found_dead token sessionId now tokens e h64 he

/-- Witness for `validateToken_no_replay`: a fresh valid entry is consumed by
a first validation, and a second validation of the same token (with one
unrelated call in between) returns `false`. -/
theorem validateToken_no_replay_witness :
    (validateToken
        "0123456789abcdef0123456789abcdef0123456789abcdef0123456789abcdef"
        "sess" 20
        (runValidateCalls [("x", "other", 15)]
          (validateToken
            "0123456789abcdef0123456789abcdef0123456789abcdef0123456789abcdef"
            "sess" 10
            [(csrfKey "sess"
                "0123456789abcdef0123456789abcdef0123456789abcdef0123456789abcdef",
              ⟨"0123456789abcdef0123456789abcdef0123456789abcdef0123456789abcdef",
                3600000, false⟩)]).2)).1 = false :=
  validateToken_no_replay
    "0123456789abcdef0123456789abcdef0123456789abcdef0123456789abcdef"
    "sess" 10
    [(csrfKey "sess"
        "0123456789abcdef0123456789abcdef0123456789abcdef0123456789abcdef",
      ⟨"0123456789abcdef0123456789abcdef0123456789abcdef0123456789abcdef",
        3600000, false⟩)]
    ⟨"0123456789abcdef0123456789abcdef0123456789abcdef0123456789abcdef",
      3600000, false⟩
    (by decide) (by decide) [("x", "other", 15)] 20

end NoReplay

end FormBuilder
